import Mathlib

/-!
# Verification of the conjoncture-cftc forecasting core

Shallow embedding, in Lean 4, of the forecasting subsystem of the
conjoncture-cftc repository (`scripts/predictions_model_v2.py`,
`predictions_model_v3.py`, `predictions_model_v4.py`), together with
theorems settling the specification claims about it.

Modelling conventions, used uniformly below:

* Python floats are modelled as rationals (`ℚ`).  Binary floating-point
  artefacts (representation error, binary tie-breaking inside `round`)
  are abstracted away: `round(x, d)` is modelled as decimal
  round-half-to-even (`pyRound`), which is the documented behaviour of
  Python's `round` on decimal data.
* `math.sqrt` is modelled by `ratSqrt`, a fixed-point rational square
  root correct to 6 decimal places.  Every concrete evaluation below is
  robust to this approximation (no quantity under a square root sits
  within `10⁻⁵` of a rounding boundary).
* `random.gauss(0, σ)` can return any real number, so the Monte-Carlo
  shock stream is modelled as an arbitrary rational-valued input
  `ε : ℕ → ℕ → ℚ` (simulation index, step index); `random.uniform(a, b)`
  becomes an input constrained (where the claim needs it) to `[a, b]`.
* Operations that can raise in Python (list indexing, `statistics.mean`
  and `statistics.stdev` on too-short data, percentile of an empty
  series) are `Option`-valued; `none` models an uncaught exception.
  `dict.get(k, default)` is total and is modelled by `Option.getD`.
* JSON documents read by the orchestrator are modelled as structures of
  optional numeric leaves (`Option ℚ`), matching the upstream
  `fetch_data.py` pipeline, which stores all the consulted fields as
  numbers.
* Period labels such as `"2026-01"` and `"T1 2026"` are modelled as
  `(year, month)` / `(quarter, year)` pairs; fixed explanatory strings
  (methodology, insights, legal bases) carry no numeric content and are
  either kept as plain strings or omitted from the records.
-/

namespace CftC

/-! ## Python-style numeric primitives -/

/-- Round-half-to-even to an integer (the rounding mode of Python's
`round`). -/
def rhe (q : ℚ) : ℤ :=
  if q - (⌊q⌋ : ℚ) < 1/2 then ⌊q⌋
  else if 1/2 < q - (⌊q⌋ : ℚ) then ⌊q⌋ + 1
  else if ⌊q⌋ % 2 = 0 then ⌊q⌋ else ⌊q⌋ + 1

/-- Python's `round(x, d)`: round-half-to-even at `d` decimal places. -/
def pyRound (d : ℕ) (q : ℚ) : ℚ := (rhe (q * 10 ^ d) : ℚ) / 10 ^ d

/-- `rhe` moves a value by at most `1/2`. -/
theorem rhe_sub_le (q : ℚ) : (rhe q : ℚ) ≤ q + 1/2 ∧ q - 1/2 ≤ (rhe q : ℚ) := by
  unfold rhe
  have hf : (⌊q⌋ : ℚ) ≤ q := Int.floor_le q
  have hf' : q < (⌊q⌋ : ℚ) + 1 := Int.lt_floor_add_one q
  split <;> rename_i h1
  · constructor <;> linarith
  · split <;> rename_i h2
    · constructor <;> push_cast <;> linarith
    · have : q - (⌊q⌋ : ℚ) = 1/2 := le_antisymm (not_lt.mp h2) (not_lt.mp h1)
      split <;> constructor <;> push_cast <;> linarith

/-- `rhe` is monotone. -/
theorem rhe_mono {x y : ℚ} (h : x ≤ y) : rhe x ≤ rhe y := by
  by_contra hc
  push_neg at hc
  have hxy : rhe y + 1 ≤ rhe x := hc
  have h1 := (rhe_sub_le x).1
  have h2 := (rhe_sub_le y).2
  have : (rhe x : ℚ) ≤ (rhe y : ℚ) + 1 := by linarith
  have hx1 : (rhe x : ℚ) = (rhe y : ℚ) + 1 := le_antisymm this (by exact_mod_cast hxy)
  have : x = y := by linarith [ (rhe_sub_le x).2, (rhe_sub_le y).1 ]
  subst this
  omega

/-- `pyRound` is monotone. -/
theorem pyRound_mono (d : ℕ) {x y : ℚ} (h : x ≤ y) : pyRound d x ≤ pyRound d y := by
  unfold pyRound
  have h10 : (0:ℚ) < 10 ^ d := by positivity
  have hm : x * 10 ^ d ≤ y * 10 ^ d := by
    exact mul_le_mul_of_nonneg_right h (le_of_lt h10)
  have hr : ((rhe (x * 10 ^ d) : ℚ)) ≤ (rhe (y * 10 ^ d) : ℚ) := by
    exact_mod_cast rhe_mono hm
  gcongr

/-- `rhe` of an integer is that integer. -/
theorem rhe_intCast (n : ℤ) : rhe (n : ℚ) = n := by
  unfold rhe
  simp

/-- Values already on the `d`-decimal grid are fixed by `pyRound`. -/
theorem pyRound_eq_self_of_grid (d : ℕ) (z : ℤ) :
    pyRound d ((z : ℚ) / 10 ^ d) = (z : ℚ) / 10 ^ d := by
  unfold pyRound
  have h10 : (10:ℚ) ^ d ≠ 0 := by positivity
  rw [div_mul_cancel₀ _ h10, rhe_intCast]

/-- `pyRound` always lands on the `d`-decimal grid. -/
theorem pyRound_grid (d : ℕ) (q : ℚ) : ∃ z : ℤ, pyRound d q = (z : ℚ) / 10 ^ d :=
  ⟨rhe (q * 10 ^ d), rfl⟩

theorem pyRound_intCast (d : ℕ) (z : ℤ) : pyRound d (z : ℚ) = (z : ℚ) := by
  have h10 : ((10 : ℚ) ^ d) ≠ 0 := by positivity
  have : ((z : ℚ)) = ((z * 10 ^ d : ℤ) : ℚ) / 10 ^ d := by
    push_cast
    field_simp
  rw [this, pyRound_eq_self_of_grid]

/-- `pyRound` is idempotent. -/
theorem pyRound_idem (d : ℕ) (q : ℚ) : pyRound d (pyRound d q) = pyRound d q := by
  obtain ⟨z, hz⟩ := pyRound_grid d q
  rw [hz, pyRound_eq_self_of_grid]

/-- Fixed-point rational square root, correct to 6 decimal places;
models `math.sqrt` on the (nonnegative) arguments that occur in the
source. -/
def ratSqrt (q : ℚ) : ℚ :=
  if q ≤ 0 then 0
  else (Nat.sqrt ((q.num.toNat * 10 ^ 12) / q.den) : ℚ) / 10 ^ 6

theorem ratSqrt_nonneg (q : ℚ) : 0 ≤ ratSqrt q := by
  unfold ratSqrt
  split
  · exact le_refl 0
  · positivity

/-- Python list indexing `l[i]` (negative indices count from the end;
out-of-range raises, i.e. yields `none`). -/
def pyIndex (l : List ℚ) (i : ℤ) : Option ℚ :=
  if 0 ≤ i then l[i.toNat]?
  else if 0 ≤ i + l.length then l[(i + l.length).toNat]?
  else none

/-- Python `l[-1]`. -/
def pyLast (l : List ℚ) : Option ℚ := pyIndex l (-1)

theorem pyIndex_eq_getD {l : List ℚ} {i : ℤ} (h0 : 0 ≤ i) (hl : i < l.length) :
    pyIndex l i = some (l.getD i.toNat 0) := by
  unfold pyIndex
  rw [if_pos h0]
  have hn : i.toNat < l.length := by omega
  rw [List.getElem?_eq_getElem hn, List.getD_eq_getElem l 0 hn]

theorem pyLast_eq {l : List ℚ} (h : l ≠ []) :
    pyLast l = some (l.getD (l.length - 1) 0) := by
  unfold pyLast pyIndex
  have hl : 0 < l.length := List.length_pos.mpr h
  rw [if_neg (by omega), if_pos (by omega)]
  have hn : ((-1) + (l.length : ℤ)).toNat = l.length - 1 := by omega
  rw [hn]
  have hlt : l.length - 1 < l.length := by omega
  rw [List.getElem?_eq_getElem hlt, List.getD_eq_getElem l 0 hlt]

/-! ## Series statistics (predictions_model_v4.py / v2.py utilities) -/

/-- Python `sorted(data)` on rationals. -/
def sortQ (data : List ℚ) : List ℚ := data.mergeSort (fun a b => decide (a ≤ b))

theorem sortQ_sorted (data : List ℚ) : (sortQ data).Sorted (· ≤ ·) := by
  have h := @List.sorted_mergeSort ℚ (fun a b : ℚ => decide (a ≤ b))
    (fun a b c hab hbc => by
      simp only [decide_eq_true_eq] at *; exact le_trans hab hbc)
    (fun a b => by
      simp only [Bool.or_eq_true, decide_eq_true_eq]; exact le_total a b)
    data
  exact h.imp (fun h => by simpa using h)

@[simp] theorem sortQ_length (data : List ℚ) : (sortQ data).length = data.length :=
  List.length_mergeSort data

/-- On a sorted list, `getD` is monotone in the index (within range). -/
theorem sorted_getD_mono {s : List ℚ} (hs : s.Sorted (· ≤ ·)) {i j : ℕ}
    (hij : i ≤ j) (hj : j < s.length) : s.getD i 0 ≤ s.getD j 0 := by
  have hi : i < s.length := lt_of_le_of_lt hij hj
  rw [List.getD_eq_getElem s 0 hi, List.getD_eq_getElem s 0 hj]
  rcases Nat.eq_or_lt_of_le hij with h | h
  · subst h; exact le_refl _
  · exact List.pairwise_iff_getElem.mp hs i j hi hj h

/-- The interpolation position `k = (len(sorted_data) - 1) * p / 100` of
`percentile`. -/
def kOf (s : List ℚ) (p : ℚ) : ℚ := ((s.length : ℚ) - 1) * p / 100

/-- `percentile(data, p)` from `predictions_model_v4.py`: linear-interpolated
percentile over a sorted copy; `none` models the `IndexError` raised on an
empty list. -/
def percentile (data : List ℚ) (p : ℚ) : Option ℚ :=
  if ⌊kOf (sortQ data) p⌋ = ⌈kOf (sortQ data) p⌉ then
    pyIndex (sortQ data) ⌊kOf (sortQ data) p⌋
  else do
    let a ← pyIndex (sortQ data) ⌊kOf (sortQ data) p⌋
    let b ← pyIndex (sortQ data) ⌈kOf (sortQ data) p⌉
    some (a * ((⌈kOf (sortQ data) p⌉ : ℚ) - kOf (sortQ data) p) +
      b * (kOf (sortQ data) p - (⌊kOf (sortQ data) p⌋ : ℚ)))

/-- The interpolation kernel of `percentile`, on the sorted list. -/
def interp (s : List ℚ) (k : ℚ) : ℚ :=
  if ⌊k⌋ = ⌈k⌉ then s.getD (⌊k⌋).toNat 0
  else s.getD (⌊k⌋).toNat 0 * ((⌈k⌉ : ℚ) - k) + s.getD (⌈k⌉).toNat 0 * (k - (⌊k⌋ : ℚ))

theorem k_bounds {s : List ℚ} {p : ℚ} (hs : s ≠ []) (hp0 : 0 ≤ p) (hp1 : p ≤ 100) :
    0 ≤ kOf s p ∧ kOf s p ≤ (s.length : ℚ) - 1 := by
  have h1 : (1 : ℚ) ≤ (s.length : ℚ) := by
    have := List.length_pos.mpr hs
    exact_mod_cast this
  unfold kOf
  constructor
  · apply div_nonneg _ (by norm_num)
    apply mul_nonneg (by linarith) hp0
  · rw [div_le_iff₀ (by norm_num : (0:ℚ) < 100)]
    nlinarith

theorem percentile_eq_interp {data : List ℚ} {p : ℚ} (hne : data ≠ [])
    (hp0 : 0 ≤ p) (hp1 : p ≤ 100) :
    percentile data p = some (interp (sortQ data) (kOf (sortQ data) p)) := by
  have hsne : sortQ data ≠ [] := by
    intro h
    exact hne (List.length_eq_zero.mp (by rw [← sortQ_length data, h]; rfl))
  obtain ⟨hk0, hk1⟩ := k_bounds hsne hp0 hp1
  set s := sortQ data with hs
  set k : ℚ := kOf s p with hk
  have hf0 : 0 ≤ ⌊k⌋ := Int.floor_nonneg.mpr hk0
  have hc0 : 0 ≤ ⌈k⌉ := Int.ceil_nonneg hk0
  have hfl : ⌊k⌋ < (s.length : ℤ) := by
    have h1 := Int.floor_le k
    have : (⌊k⌋ : ℚ) < (s.length : ℚ) := by linarith
    exact_mod_cast this
  have hcl : ⌈k⌉ < (s.length : ℤ) := by
    have : ⌈k⌉ ≤ (s.length : ℤ) - 1 := by
      rw [Int.ceil_le]
      push_cast
      linarith
    omega
  unfold percentile interp
  rw [← hs, ← hk]
  split
  · rw [pyIndex_eq_getD hf0 (by exact_mod_cast hfl)]
  · rw [pyIndex_eq_getD hf0 (by exact_mod_cast hfl),
      pyIndex_eq_getD hc0 (by exact_mod_cast hcl)]
    rfl

/-- `interp` lies between the values at the floor and ceiling indices. -/
theorem interp_bounds {s : List ℚ} (hs : s.Sorted (· ≤ ·)) {k : ℚ}
    (hk0 : 0 ≤ k) (hk1 : k ≤ (s.length : ℚ) - 1) :
    s.getD (⌊k⌋).toNat 0 ≤ interp s k ∧ interp s k ≤ s.getD (⌈k⌉).toNat 0 := by
  unfold interp
  split <;> rename_i hfc
  · rw [hfc]
    exact ⟨le_refl _, le_refl _⟩
  · have hflt : ⌊k⌋ < ⌈k⌉ := lt_of_le_of_ne (Int.floor_le_ceil k) hfc
    have hcle : ⌈k⌉ ≤ ⌊k⌋ + 1 := Int.ceil_le_floor_add_one k
    have hceq : ⌈k⌉ = ⌊k⌋ + 1 := by omega
    have hf0 : 0 ≤ ⌊k⌋ := Int.floor_nonneg.mpr hk0
    have hfne : (⌊k⌋ : ℚ) ≠ k := by
      intro he
      apply hfc
      rw [← he]
      simp
    have hflt' : (⌊k⌋ : ℚ) < k := lt_of_le_of_ne (Int.floor_le k) hfne
    have hclen : (⌈k⌉).toNat < s.length := by
      have h1 : (⌈k⌉ : ℚ) < (s.length : ℚ) := by
        rw [hceq]
        push_cast
        linarith
      have h2 : ⌈k⌉ < (s.length : ℤ) := by exact_mod_cast h1
      omega
    have hab : s.getD (⌊k⌋).toNat 0 ≤ s.getD (⌈k⌉).toNat 0 :=
      sorted_getD_mono hs (by omega) hclen
    set a := s.getD (⌊k⌋).toNat 0
    set b := s.getD (⌈k⌉).toNat 0
    have ht0 : 0 ≤ k - (⌊k⌋ : ℚ) := by
      have := Int.floor_le k
      linarith
    have ht1 : k - (⌊k⌋ : ℚ) ≤ 1 := by
      have := Int.lt_floor_add_one k
      linarith
    have hsum : ((⌈k⌉ : ℚ) - k) = 1 - (k - (⌊k⌋ : ℚ)) := by
      rw [hceq]
      push_cast
      ring
    constructor
    · rw [hsum]
      nlinarith
    · rw [hsum]
      nlinarith

/-- Within a single interpolation cell, `interp` is monotone. -/
theorem interp_mono_same_floor {s : List ℚ} (hs : s.Sorted (· ≤ ·)) {k₁ k₂ : ℚ}
    (hk0 : 0 ≤ k₁) (h12 : k₁ ≤ k₂) (hk1 : k₂ ≤ (s.length : ℚ) - 1)
    (hff : ⌊k₁⌋ = ⌊k₂⌋) : interp s k₁ ≤ interp s k₂ := by
  by_cases hint1 : ⌊k₁⌋ = ⌈k₁⌉
  · have h1 : interp s k₁ = s.getD (⌊k₁⌋).toNat 0 := by
      unfold interp
      rw [if_pos hint1]
    rw [h1, hff]
    exact (interp_bounds hs (le_trans hk0 h12) hk1).1
  · by_cases hint2 : ⌊k₂⌋ = ⌈k₂⌉
    · -- `k₂` is an integer sharing a floor with the non-integer `k₁ ≤ k₂`:
      -- impossible, since then `k₂ = ⌊k₁⌋ ≤ k₁` forces `k₁ = k₂` integer
      exfalso
      have hk2int : (⌊k₂⌋ : ℚ) = k₂ := by
        have ha := Int.floor_le k₂
        have hb := Int.le_ceil k₂
        rw [← hint2] at hb
        linarith
      have h2 : k₂ ≤ k₁ := by
        rw [← hk2int, ← hff]
        exact Int.floor_le k₁
      have h3 : k₁ = k₂ := le_antisymm h12 h2
      apply hint1
      rw [h3]
      exact hint2
    · have hceq1 : ⌈k₁⌉ = ⌊k₁⌋ + 1 := by
        have := Int.floor_le_ceil k₁
        have := Int.ceil_le_floor_add_one k₁
        omega
      have hceq2 : ⌈k₂⌉ = ⌊k₂⌋ + 1 := by
        have := Int.floor_le_ceil k₂
        have := Int.ceil_le_floor_add_one k₂
        omega
      unfold interp
      rw [if_neg hint1, if_neg hint2, hceq1, hceq2, ← hff]
      have hclen : (⌊k₁⌋ + 1).toNat < s.length := by
        have hfne2 : (⌊k₂⌋ : ℚ) ≠ k₂ := by
          intro he
          apply hint2
          rw [← he]
          simp
        have h1 : (⌊k₂⌋ : ℚ) < (s.length : ℚ) - 1 :=
          lt_of_lt_of_le (lt_of_le_of_ne (Int.floor_le k₂) hfne2) hk1
        have h2 : ⌊k₂⌋ < (s.length : ℤ) - 1 := by exact_mod_cast h1
        have hf0 : 0 ≤ ⌊k₁⌋ := Int.floor_nonneg.mpr hk0
        omega
      have hab : s.getD (⌊k₁⌋).toNat 0 ≤ s.getD ((⌊k₁⌋ + 1)).toNat 0 := by
        apply sorted_getD_mono hs _ hclen
        exact Int.toNat_le_toNat (by omega)
      set a := s.getD (⌊k₁⌋).toNat 0
      set b := s.getD ((⌊k₁⌋ + 1)).toNat 0
      push_cast
      nlinarith [mul_nonneg (sub_nonneg.mpr hab) (sub_nonneg.mpr h12)]

/-- `interp` on a sorted list is monotone in `k` over the index range. -/
theorem interp_mono {s : List ℚ} (hs : s.Sorted (· ≤ ·)) {k₁ k₂ : ℚ}
    (hk0 : 0 ≤ k₁) (h12 : k₁ ≤ k₂) (hk1 : k₂ ≤ (s.length : ℚ) - 1) :
    interp s k₁ ≤ interp s k₂ := by
  by_cases hff : ⌊k₁⌋ = ⌊k₂⌋
  · exact interp_mono_same_floor hs hk0 h12 hk1 hff
  · have hfle : ⌊k₁⌋ < ⌊k₂⌋ := lt_of_le_of_ne (Int.floor_mono h12) hff
    have hb1 := (interp_bounds hs hk0 (le_trans h12 hk1)).2
    have hb2 := (interp_bounds hs (le_trans hk0 h12) hk1).1
    have hc1 : ⌈k₁⌉ ≤ ⌊k₂⌋ := by
      have := Int.ceil_le_floor_add_one k₁
      omega
    have hf2len : (⌊k₂⌋).toNat < s.length := by
      have h1 : (⌊k₂⌋ : ℚ) ≤ (s.length : ℚ) - 1 := le_trans (Int.floor_le k₂) hk1
      have h2 : ⌊k₂⌋ ≤ (s.length : ℤ) - 1 := by exact_mod_cast h1
      have hf0 : 0 ≤ ⌊k₁⌋ := Int.floor_nonneg.mpr hk0
      omega
    have hmid : s.getD (⌈k₁⌉).toNat 0 ≤ s.getD (⌊k₂⌋).toNat 0 := by
      apply sorted_getD_mono hs _ hf2len
      have hc0 : 0 ≤ ⌈k₁⌉ := Int.ceil_nonneg hk0
      omega
    linarith

/-- Monotonicity of `percentile` in `p`, on nonempty data. -/
theorem percentile_mono {data : List ℚ} {p₁ p₂ : ℚ} (hne : data ≠ [])
    (hp0 : 0 ≤ p₁) (h12 : p₁ ≤ p₂) (hp1 : p₂ ≤ 100) :
    (percentile data p₁).getD 0 ≤ (percentile data p₂).getD 0 := by
  rw [percentile_eq_interp hne hp0 (le_trans h12 hp1),
    percentile_eq_interp hne (le_trans hp0 h12) hp1]
  simp only [Option.getD_some]
  have hsne : sortQ data ≠ [] := by
    intro h
    exact hne (List.length_eq_zero.mp (by rw [← sortQ_length data, h]; rfl))
  have hs := sortQ_sorted data
  obtain ⟨hk0, _⟩ := k_bounds hsne hp0 (le_trans h12 hp1)
  obtain ⟨_, hk1⟩ := k_bounds hsne (le_trans hp0 h12) hp1
  apply interp_mono hs hk0 _ hk1
  have h1 : (1 : ℚ) ≤ ((sortQ data).length : ℚ) := by
    have := List.length_pos.mpr hsne
    exact_mod_cast this
  have h2 : (0 : ℚ) ≤ ((sortQ data).length : ℚ) - 1 := by linarith
  unfold kOf
  gcongr

/-- `statistics.mean`; `none` models the error raised on an empty list. -/
def meanOpt (data : List ℚ) : Option ℚ :=
  if data.length = 0 then none else some (data.sum / (data.length : ℚ))

/-- `statistics.stdev` (sample standard deviation); `none` models the
`StatisticsError` raised on fewer than two points. -/
def stdevOpt (data : List ℚ) : Option ℚ :=
  if data.length < 2 then none
  else some (ratSqrt
    ((data.map (fun x => (x - data.sum / (data.length : ℚ)) ^ 2)).sum /
      ((data.length : ℚ) - 1)))

/-! ## Option sequencing helpers -/

/-- Sequence a list of optional values (`none` anywhere aborts, modelling
an exception inside a Python list-building loop). -/
def optList : List (Option ℚ) → Option (List ℚ)
  | [] => some []
  | none :: _ => none
  | some a :: rest => (optList rest).map (a :: ·)

/-- Build the list `[f 0, …, f (n-1)]`, aborting if any entry is `none`. -/
def seqOption (n : ℕ) (f : ℕ → Option ℚ) : Option (List ℚ) :=
  optList ((List.range n).map f)

theorem optList_some_spec : ∀ {l : List (Option ℚ)} {r : List ℚ},
    optList l = some r → r.length = l.length ∧ ∀ i < l.length, l.getD i none = some (r.getD i 0)
  | [], r, h => by
    simp only [optList, Option.some.injEq] at h
    subst h
    exact ⟨rfl, fun i hi => absurd hi (by simp)⟩
  | none :: rest, r, h => by
    simp [optList] at h
  | some a :: rest, r, h => by
    simp only [optList, Option.map_eq_some'] at h
    obtain ⟨r', hr', hr⟩ := h
    obtain ⟨hlen, hget⟩ := optList_some_spec hr'
    subst hr
    refine ⟨by simp [hlen], fun i hi => ?_⟩
    cases i with
    | zero => rfl
    | succ j =>
        simp only [List.getD_cons_succ]
        exact hget j (by simpa using hi)

theorem optList_isSome (l : List (Option ℚ)) (h : ∀ x ∈ l, x.isSome) :
    ∃ r, optList l = some r := by
  induction l with
  | nil => exact ⟨[], rfl⟩
  | cons x rest ih =>
      obtain ⟨a, ha⟩ := Option.isSome_iff_exists.mp (h x (by simp))
      obtain ⟨r, hr⟩ := ih (fun y hy => h y (by simp [hy]))
      subst ha
      exact ⟨a :: r, by simp [optList, hr]⟩

theorem seqOption_some_spec {n : ℕ} {f : ℕ → Option ℚ} {l : List ℚ}
    (h : seqOption n f = some l) :
    l.length = n ∧ ∀ i < n, f i = some (l.getD i 0) := by
  obtain ⟨hlen, hget⟩ := optList_some_spec h
  have hn : ((List.range n).map f).length = n := by simp
  refine ⟨by rw [hlen, hn], fun i hi => ?_⟩
  have := hget i (by rw [hn]; exact hi)
  rwa [List.getD_eq_getElem _ none (by rw [hn]; exact hi), List.getElem_map,
    List.getElem_range] at this

theorem seqOption_isSome (n : ℕ) (f : ℕ → Option ℚ) (h : ∀ i < n, (f i).isSome) :
    ∃ l, seqOption n f = some l := by
  apply optList_isSome
  intro x hx
  simp only [List.mem_map, List.mem_range] at hx
  obtain ⟨i, hi, rfl⟩ := hx
  exact h i hi

/-! ## Monte-Carlo simulation (`monte_carlo_simulation`, predictions_model_v4.py)

The Gaussian shock `random.gauss(0, volatility/√12)` is modelled as
`(volatility / ratSqrt 12) * ε sim step` with `ε` an arbitrary
rational-valued stream: a centred Gaussian with standard deviation `σ`
is `σ` times a standard normal draw, and the draws themselves are
unconstrained real inputs. -/

/-- One simulated trajectory — the `path[1:]` list built by the inner loop
of `monte_carlo_simulation`.  Arguments after the parameters: remaining
steps, current calendar month, previous value, current step index. -/
def mcPath (target volatility mrs : ℚ) (seasonal : Option (ℕ → ℚ)) (ε : ℕ → ℚ) :
    ℕ → ℕ → ℚ → ℕ → List ℚ
  | 0, _, _, _ => []
  | steps + 1, month, prev, step =>
      let m := month % 12 + 1
      let drift := mrs * (target - prev)
      let shock := (volatility / ratSqrt 12) * ε step
      let seas := match seasonal with
        | some table => table m
        | none => 0
      let next := max (-2) (min (prev + drift + shock + seas) 15)
      pyRound 2 next :: mcPath target volatility mrs seasonal ε steps m (pyRound 2 next) (step + 1)

theorem mcPath_length (target volatility mrs : ℚ) (seasonal : Option (ℕ → ℚ))
    (ε : ℕ → ℚ) : ∀ (steps month : ℕ) (prev : ℚ) (step : ℕ),
    (mcPath target volatility mrs seasonal ε steps month prev step).length = steps
  | 0, _, _, _ => rfl
  | steps + 1, month, prev, step => by
      simp only [mcPath, List.length_cons]
      rw [mcPath_length]

/-- The `n_sims` independent trajectories. -/
def mcTrajectories (current target volatility : ℚ) (horizon nSims : ℕ) (mrs : ℚ)
    (seasonal : Option (ℕ → ℚ)) (startMonth : ℕ) (ε : ℕ → ℕ → ℚ) : List (List ℚ) :=
  (List.range nSims).map (fun s => mcPath target volatility mrs seasonal (ε s) horizon startMonth current 0)

/-- `values_at_h = [t[h] for t in trajectories]`; total via `getD` because the
statistics loop only uses `h < horizon` and every trajectory has `horizon`
entries (`mcPath_length`). -/
def mcValuesAt (trajs : List (List ℚ)) (h : ℕ) : List ℚ :=
  trajs.map (fun t => t.getD h 0)

/-- Count of entries strictly below `c`, as a rational. -/
def countLt (l : List ℚ) (c : ℚ) : ℚ := ((l.filter (fun v => v < c)).length : ℚ)

/-- Count of entries strictly above `c`, as a rational. -/
def countGt (l : List ℚ) (c : ℚ) : ℚ := ((l.filter (fun v => c < v)).length : ℚ)

/-- The per-step statistics and terminal probabilities returned by
`monte_carlo_simulation`. -/
structure McStats where
  p10 : List ℚ
  p25 : List ℚ
  p50 : List ℚ
  p75 : List ℚ
  p90 : List ℚ
  meanL : List ℚ
  stdL : List ℚ
  probBelow1 : ℚ
  probBelow2 : ℚ
  probAbove2 : ℚ
  probAbove3 : ℚ
deriving Repr, DecidableEq

/-- `monte_carlo_simulation` from `predictions_model_v4.py`.  `none` models
an uncaught exception (percentile/mean on an empty cross-section when
`n_sims = 0`, `stdev` when `n_sims < 2`, `t[-1]` when `horizon = 0`). -/
def monteCarloSimulation (current target volatility : ℚ) (horizon : ℕ)
    (nSims : ℕ) (mrs : ℚ) (seasonal : Option (ℕ → ℚ)) (startMonth : ℕ)
    (ε : ℕ → ℕ → ℚ) : Option McStats :=
  let trajs := mcTrajectories current target volatility horizon nSims mrs seasonal startMonth ε
  (seqOption horizon (fun h => (percentile (mcValuesAt trajs h) 10).map (pyRound 1))).bind fun p10 =>
  (seqOption horizon (fun h => (percentile (mcValuesAt trajs h) 25).map (pyRound 1))).bind fun p25 =>
  (seqOption horizon (fun h => (percentile (mcValuesAt trajs h) 50).map (pyRound 1))).bind fun p50 =>
  (seqOption horizon (fun h => (percentile (mcValuesAt trajs h) 75).map (pyRound 1))).bind fun p75 =>
  (seqOption horizon (fun h => (percentile (mcValuesAt trajs h) 90).map (pyRound 1))).bind fun p90 =>
  (seqOption horizon (fun h => (meanOpt (mcValuesAt trajs h)).map (pyRound 1))).bind fun meanL =>
  (seqOption horizon (fun h => (stdevOpt (mcValuesAt trajs h)).map (pyRound 2))).bind fun stdL =>
  (optList (trajs.map pyLast)).bind fun finals =>
  some ⟨p10, p25, p50, p75, p90, meanL, stdL,
    pyRound 1 (countLt finals 1 / (nSims : ℚ) * 100),
    pyRound 1 (countLt finals 2 / (nSims : ℚ) * 100),
    pyRound 1 (countGt finals 2 / (nSims : ℚ) * 100),
    pyRound 1 (countGt finals 3 / (nSims : ℚ) * 100)⟩

theorem mcValuesAt_ne_nil (current target volatility : ℚ) (horizon nSims : ℕ)
    (mrs : ℚ) (seasonal : Option (ℕ → ℚ)) (startMonth : ℕ) (ε : ℕ → ℕ → ℚ)
    (hn : 1 ≤ nSims) (h : ℕ) :
    mcValuesAt (mcTrajectories current target volatility horizon nSims mrs seasonal startMonth ε) h ≠ [] := by
  intro hc
  have := congrArg List.length hc
  simp [mcValuesAt, mcTrajectories] at this
  omega

theorem mcValuesAt_length (current target volatility : ℚ) (horizon nSims : ℕ)
    (mrs : ℚ) (seasonal : Option (ℕ → ℚ)) (startMonth : ℕ) (ε : ℕ → ℕ → ℚ) (h : ℕ) :
    (mcValuesAt (mcTrajectories current target volatility horizon nSims mrs seasonal startMonth ε) h).length = nSims := by
  simp [mcValuesAt, mcTrajectories]

/-- Unfolding of a successful `monteCarloSimulation` run: all statistics
lists have `horizon` entries, and each percentile entry is the rounded
`percentile` of the cross-section at that step. -/
theorem mc_some_spec {current target volatility : ℚ} {horizon nSims : ℕ}
    {mrs : ℚ} {seasonal : Option (ℕ → ℚ)} {startMonth : ℕ} {ε : ℕ → ℕ → ℚ}
    {st : McStats}
    (hmc : monteCarloSimulation current target volatility horizon nSims mrs seasonal startMonth ε = some st) :
    (st.p10.length = horizon ∧ st.p25.length = horizon ∧ st.p50.length = horizon ∧
      st.p75.length = horizon ∧ st.p90.length = horizon) ∧
    ∀ h < horizon,
      st.p10.getD h 0 = pyRound 1 ((percentile (mcValuesAt (mcTrajectories current target volatility horizon nSims mrs seasonal startMonth ε) h) 10).getD 0) ∧
      st.p25.getD h 0 = pyRound 1 ((percentile (mcValuesAt (mcTrajectories current target volatility horizon nSims mrs seasonal startMonth ε) h) 25).getD 0) ∧
      st.p50.getD h 0 = pyRound 1 ((percentile (mcValuesAt (mcTrajectories current target volatility horizon nSims mrs seasonal startMonth ε) h) 50).getD 0) ∧
      st.p75.getD h 0 = pyRound 1 ((percentile (mcValuesAt (mcTrajectories current target volatility horizon nSims mrs seasonal startMonth ε) h) 75).getD 0) ∧
      st.p90.getD h 0 = pyRound 1 ((percentile (mcValuesAt (mcTrajectories current target volatility horizon nSims mrs seasonal startMonth ε) h) 90).getD 0) := by
  simp only [monteCarloSimulation, Option.bind_eq_some, Option.some.injEq] at hmc
  obtain ⟨l10, h10, l25, h25, l50, h50, l75, h75, l90, h90, lm, hm, ls, hs, fin, hfin, hst⟩ := hmc
  obtain ⟨len10, get10⟩ := seqOption_some_spec h10
  obtain ⟨len25, get25⟩ := seqOption_some_spec h25
  obtain ⟨len50, get50⟩ := seqOption_some_spec h50
  obtain ⟨len75, get75⟩ := seqOption_some_spec h75
  obtain ⟨len90, get90⟩ := seqOption_some_spec h90
  subst hst
  refine ⟨⟨len10, len25, len50, len75, len90⟩, fun h hh => ?_⟩
  refine ⟨?_, ?_, ?_, ?_, ?_⟩ <;>
    [have hg := get10 h hh; have hg := get25 h hh; have hg := get50 h hh;
     have hg := get75 h hh; have hg := get90 h hh] <;>
  · rw [Option.map_eq_some'] at hg
    obtain ⟨a, ha, hval⟩ := hg
    simp only [ha, Option.getD_some]
    exact hval.symm

/-- With at least two simulations and a positive horizon,
`monte_carlo_simulation` succeeds. -/
theorem mc_isSome {current target volatility : ℚ} {horizon nSims : ℕ}
    {mrs : ℚ} {seasonal : Option (ℕ → ℚ)} {startMonth : ℕ} {ε : ℕ → ℕ → ℚ}
    (hn : 2 ≤ nSims) (hh : 1 ≤ horizon) :
    ∃ st, monteCarloSimulation current target volatility horizon nSims mrs seasonal startMonth ε = some st := by
  have hn1 : 1 ≤ nSims := le_trans (by norm_num) hn
  have hpct : ∀ (p : ℚ), 0 ≤ p → p ≤ 100 → ∀ h < horizon,
      ((percentile (mcValuesAt (mcTrajectories current target volatility horizon nSims mrs seasonal startMonth ε) h) p).map (pyRound 1)).isSome := by
    intro p hp0 hp1 h _
    rw [percentile_eq_interp
      (mcValuesAt_ne_nil current target volatility horizon nSims mrs seasonal startMonth ε hn1 h) hp0 hp1]
    rfl
  obtain ⟨l10, h10⟩ := seqOption_isSome _ _ (hpct 10 (by norm_num) (by norm_num))
  obtain ⟨l25, h25⟩ := seqOption_isSome _ _ (hpct 25 (by norm_num) (by norm_num))
  obtain ⟨l50, h50⟩ := seqOption_isSome _ _ (hpct 50 (by norm_num) (by norm_num))
  obtain ⟨l75, h75⟩ := seqOption_isSome _ _ (hpct 75 (by norm_num) (by norm_num))
  obtain ⟨l90, h90⟩ := seqOption_isSome _ _ (hpct 90 (by norm_num) (by norm_num))
  obtain ⟨lm, hm⟩ := seqOption_isSome horizon (fun h =>
      (meanOpt (mcValuesAt (mcTrajectories current target volatility horizon nSims mrs seasonal startMonth ε) h)).map (pyRound 1))
    (by
      intro h _
      have := mcValuesAt_length current target volatility horizon nSims mrs seasonal startMonth ε h
      simp [meanOpt, this]
      omega)
  obtain ⟨ls, hs⟩ := seqOption_isSome horizon (fun h =>
      (stdevOpt (mcValuesAt (mcTrajectories current target volatility horizon nSims mrs seasonal startMonth ε) h)).map (pyRound 2))
    (by
      intro h _
      have := mcValuesAt_length current target volatility horizon nSims mrs seasonal startMonth ε h
      simp [stdevOpt, this]
      omega)
  obtain ⟨fin, hfin⟩ := optList_isSome
    ((mcTrajectories current target volatility horizon nSims mrs seasonal startMonth ε).map pyLast)
    (by
      intro x hx
      simp only [List.mem_map] at hx
      obtain ⟨t, ht, rfl⟩ := hx
      simp only [mcTrajectories, List.mem_map] at ht
      obtain ⟨s, _, rfl⟩ := ht
      rw [pyLast_eq (by
        intro hnil
        have := congrArg List.length hnil
        rw [mcPath_length] at this
        simp at this
        omega)]
      rfl)
  rw [← Option.isSome_iff_exists]
  simp only [monteCarloSimulation, h10, h25, h50, h75, h90, hm, hs, hfin,
    Option.some_bind, Option.isSome_some]

/-- Ordering of the published (rounded) percentile bands of a successful
simulation: `p10 ≤ p25 ≤ p50 ≤ p75 ≤ p90` at every step. -/
theorem mc_bands_ordered {current target volatility : ℚ} {horizon nSims : ℕ}
    {mrs : ℚ} {seasonal : Option (ℕ → ℚ)} {startMonth : ℕ} {ε : ℕ → ℕ → ℚ}
    {st : McStats}
    (hmc : monteCarloSimulation current target volatility horizon nSims mrs seasonal startMonth ε = some st)
    (hn : 1 ≤ nSims) :
    ∀ h < horizon,
      st.p10.getD h 0 ≤ st.p25.getD h 0 ∧ st.p25.getD h 0 ≤ st.p50.getD h 0 ∧
      st.p50.getD h 0 ≤ st.p75.getD h 0 ∧ st.p75.getD h 0 ≤ st.p90.getD h 0 := by
  intro h hh
  obtain ⟨_, hgets⟩ := mc_some_spec hmc
  obtain ⟨e10, e25, e50, e75, e90⟩ := hgets h hh
  have hne := mcValuesAt_ne_nil current target volatility horizon nSims mrs seasonal startMonth ε hn h
  rw [e10, e25, e50, e75, e90]
  exact ⟨pyRound_mono 1 (percentile_mono hne (by norm_num) (by norm_num) (by norm_num)),
    pyRound_mono 1 (percentile_mono hne (by norm_num) (by norm_num) (by norm_num)),
    pyRound_mono 1 (percentile_mono hne (by norm_num) (by norm_num) (by norm_num)),
    pyRound_mono 1 (percentile_mono hne (by norm_num) (by norm_num) (by norm_num))⟩

/-! ## Period label generation -/

/-- The monthly `(year, month)` period labels generated by
`predict_inflation_v4` (source builds the strings `f"{y}-{m:02d}"`). -/
def periodsMonthly : ℕ → ℕ → ℕ → List (ℕ × ℕ)
  | _, _, 0 => []
  | month, year, n + 1 =>
      if month + 1 > 12 then (year + 1, 1) :: periodsMonthly 1 (year + 1) n
      else (year, month + 1) :: periodsMonthly (month + 1) year n

/-- The quarterly `(quarter, year)` period labels generated by
`predict_chomage_v4` (source builds the strings `f"T{q} {y}"`). -/
def periodsQuarterly : ℕ → ℕ → ℕ → List (ℕ × ℕ)
  | _, _, 0 => []
  | q, y, n + 1 =>
      if q + 1 > 4 then (1, y + 1) :: periodsQuarterly 1 (y + 1) n
      else (q + 1, y) :: periodsQuarterly (q + 1) y n

theorem periodsMonthly_length : ∀ (month year n : ℕ), (periodsMonthly month year n).length = n
  | _, _, 0 => rfl
  | month, year, n + 1 => by
      simp only [periodsMonthly]
      split <;> simp [periodsMonthly_length]

theorem periodsQuarterly_length : ∀ (q y n : ℕ), (periodsQuarterly q y n).length = n
  | _, _, 0 => rfl
  | q, y, n + 1 => by
      simp only [periodsQuarterly]
      split <;> simp [periodsQuarterly_length]

/-! ## Inflation forecaster (`predict_inflation_v4`) -/

/-- `SEASONAL_INFLATION` table (points of seasonal effect per calendar
month). -/
def seasonalInflation : ℕ → ℚ
  | 1 => 0.10
  | 4 => 0.05
  | 7 => 0.08
  | 8 => 0.08
  | 9 => 0.12
  | 12 => -0.05
  | _ => 0

/-- `base_target = bdf_target_2026 if year <= 2026 else bdf_target_2027`. -/
def inflationBaseTarget (year : ℕ) (t26 t27 : ℚ) : ℚ :=
  if year ≤ 2026 then t26 else t27

/-- `{'hausse': 0.3, 'stable': 0.0, 'baisse': -0.2}.get(energie_outlook, 0)`. -/
def energyAdjustment (outlook : String) : ℚ :=
  if outlook = "hausse" then 0.3
  else if outlook = "stable" then 0
  else if outlook = "baisse" then -0.2
  else 0

/-- The adjusted convergence target fed to the Monte-Carlo simulation by
`predict_inflation_v4`: institutional target for the run year, plus
business-climate and energy adjustments, clamped to `[0, 5]`. -/
def inflationAdjustedTarget (year : ℕ) (t26 t27 climat : ℚ) (outlook : String) : ℚ :=
  max 0 (min (inflationBaseTarget year t26 t27 + (climat - 100) * 0.01 + energyAdjustment outlook) 5)

/-- The `mensuel`/`trimestriel` block of a v4 forecast: median path with
p10/p90 bounds, p25/p75 finer bands, and period labels. -/
structure PathBlock where
  predictions : List ℚ
  lowerBound : List ℚ
  upperBound : List ℚ
  p25 : List ℚ
  p75 : List ℚ
  periods : List (ℕ × ℕ)
deriving Repr, DecidableEq

/-- Output record of `predict_inflation_v4` (numeric content; fixed
explanatory strings elided). -/
structure InflationV4 where
  actuel : ℚ
  prevision6m : ℚ
  prevision12m : ℚ
  tendance : String
  confidence : ℚ
  mensuel : PathBlock
  probSous2pct : ℚ
  probCibleBce : ℚ
  probAuDessus3pct : ℚ
  cibleBdf : ℚ
  ajustementClimat : ℚ
  ajustementEnergie : ℚ
  cibleAjustee : ℚ
deriving Repr, DecidableEq

/-- `predict_inflation_v4`: Monte-Carlo inflation forecast over 12 months
(volatility 0.5, mean-reversion speed 0.12, monthly seasonality).  `month`
and `year` are the run date from `get_month_year()`. -/
def predictInflationV4 (month year : ℕ) (current t26 t27 climat : ℚ)
    (outlook : String) (ε : ℕ → ℕ → ℚ) (nSims : ℕ) : Option InflationV4 :=
  let base := inflationBaseTarget year t26 t27
  let climAdj := (climat - 100) * 0.01
  let enAdj := energyAdjustment outlook
  let adjusted := inflationAdjustedTarget year t26 t27 climat outlook
  (monteCarloSimulation current adjusted 0.5 12 nSims 0.12 (some seasonalInflation) month ε).bind fun mc =>
  (pyIndex mc.p50 5).bind fun p6 =>
  (pyLast mc.p50).bind fun p12 =>
  (pyLast mc.p10).bind fun _lb =>
  (pyLast mc.p90).bind fun _ub =>
  some ⟨current, p6, p12,
    (if current + 0.2 < p12 then "hausse" else if p12 < current - 0.2 then "baisse" else "stable"),
    0.85,
    ⟨mc.p50, mc.p10, mc.p90, mc.p25, mc.p75, periodsMonthly month year 12⟩,
    mc.probBelow2, mc.probBelow2, mc.probAbove3,
    base, pyRound 2 climAdj, enAdj, pyRound 2 adjusted⟩

/-! ## Unemployment forecaster (`predict_chomage_v4`) -/

/-- Output record of `predict_chomage_v4`. -/
structure ChomageV4 where
  actuel : ℚ
  previsionQ4 : ℚ
  tendance : String
  confidence : ℚ
  trimestriel : PathBlock
  probSous7pct : ℚ
  probAuDessus8pct : ℚ
  cibleBdf : ℚ
  ajustementClimat : ℚ
  ajustementRecrutement : ℚ
  cibleAjustee : ℚ
deriving Repr, DecidableEq

/-- The adjusted target of `predict_chomage_v4`, clamped to `[5, 12]`. -/
def chomageAdjustedTarget (year : ℕ) (t26 t27 climat difficultes : ℚ) : ℚ :=
  max 5 (min ((if year ≤ 2026 then t26 else t27) + (100 - climat) * 0.02 + (50 - difficultes) * 0.01) 12)

/-- `predict_chomage_v4`: Monte-Carlo unemployment forecast over 4 quarters
(volatility 0.4, mean-reversion speed 0.20, no seasonality).  The published
threshold probabilities are fractions of the 4 median-path entries, not of
the simulated terminal values. -/
def predictChomageV4 (month year : ℕ) (current t26 t27 climat difficultes : ℚ)
    (ε : ℕ → ℕ → ℚ) (nSims : ℕ) : Option ChomageV4 :=
  let quarter := (month - 1) / 3 + 1
  let base := if year ≤ 2026 then t26 else t27
  let climAdj := (100 - climat) * 0.02
  let recrAdj := (50 - difficultes) * 0.01
  let adjusted := chomageAdjustedTarget year t26 t27 climat difficultes
  (monteCarloSimulation current adjusted 0.4 4 nSims 0.20 none month ε).bind fun mc =>
  (pyLast mc.p50).bind fun pq4 =>
  (pyLast mc.p10).bind fun _lb =>
  (pyLast mc.p90).bind fun _ub =>
  some ⟨current, pq4,
    (if current + 0.2 < pq4 then "hausse" else if pq4 < current - 0.2 then "baisse" else "stable"),
    0.80,
    ⟨mc.p50, mc.p10, mc.p90, mc.p25, mc.p75, periodsQuarterly quarter year 4⟩,
    pyRound 1 (countLt mc.p50 7 / (mc.p50.length : ℚ) * 100),
    pyRound 1 (countGt mc.p50 8 / (mc.p50.length : ℚ) * 100),
    base, pyRound 2 climAdj, pyRound 2 recrAdj, pyRound 2 adjusted⟩

/-! ## SMIC forecaster (`predict_smic_v4`) -/

/-- One projected revaluation event.  `fourchette` is `none` for the
automatic event, whose source dict has no `'fourchette'` key. -/
structure SmicEvent where
  date : ℕ × ℕ × ℕ
  typ : String
  probability : ℚ
  estimatedIncreasePct : ℚ
  newBrut : ℚ
  newNet : ℚ
  confidence : String
  fourchette : Option (ℚ × ℚ)
deriving Repr, DecidableEq

/-- The two fields of the inflation-forecast dict consulted by
`predict_smic_v4` (`.get('prevision_12m', 1.5)` and
`.get('mensuel', {}).get('upper_bound', [2.0])`), both optional. -/
structure SmicInflationInput where
  prevision12m : Option ℚ
  upperBound : Option (List ℚ)
deriving Repr, DecidableEq

/-- Output record of `predict_smic_v4`. -/
structure SmicV4 where
  currentBrut : ℚ
  currentNet : ℚ
  horaireBrut : ℚ
  events : List SmicEvent
  totalIncreasePct : ℚ
  finalBrut : ℚ
  finalNet : ℚ
  fourchette : Option (ℚ × ℚ)
deriving Repr, DecidableEq

/-- The mandatory-January increase percentage: `round(max(1.0,
inflation_prevue + 0.3 + random.uniform(-0.2, 0.2)), 1)`, with the uniform
draw modelled by the input `u`. -/
def smicJanuaryIncrease (fc : SmicInflationInput) (u : ℚ) : ℚ :=
  pyRound 1 (max 1 (fc.prevision12m.getD 1.5 + 0.3 + u))

/-- The mandatory January revaluation event built first by
`predict_smic_v4` (`next_january = year + 1 if month >= 1 else year`). -/
def smicJanuaryEvent (month year : ℕ) (brut : ℚ) (fc : SmicInflationInput) (u : ℚ) : SmicEvent :=
  let inc := smicJanuaryIncrease fc u
  let nb := pyRound 2 (brut * (1 + inc / 100))
  ⟨((if 1 ≤ month then year + 1 else year), 1, 1), "janvier", 1, inc, nb,
    pyRound 2 (nb * 0.792), "haute",
    some (pyRound 1 (inc - 0.3), pyRound 1 (inc + 0.5))⟩

/-- `predict_smic_v4`: statutory-rule SMIC projection.  `month`/`year` are
the run date; `u` models the bounded uniform perturbation; `_bdf27`
mirrors the source's `bdf_inflation_2027` parameter, which its body never
uses.  The `forecast_12m` summary is built from `events[0]` (modelled by
`events.head?`). -/
def predictSmicV4 (month year : ℕ) (brut net : ℚ) (fc : SmicInflationInput)
    (u : ℚ) (_bdf27 : ℚ) : Option SmicV4 :=
  let nextJanuary := if 1 ≤ month then year + 1 else year
  let ev0 := smicJanuaryEvent month year brut fc u
  let newBrut := ev0.newBrut
  (pyLast (fc.upperBound.getD [2])).bind fun inflationUpper =>
  let probAuto := min 0.4 ((inflationUpper - 2) * 0.3)
  let autoIncrease := pyRound 1 (inflationUpper - 0.5)
  let events :=
    if 2 ≤ inflationUpper ∧ 0.1 < probAuto then
      [ev0, ⟨(nextJanuary, 7, 1), "automatique", pyRound 2 probAuto, autoIncrease,
        pyRound 2 (newBrut * (1 + autoIncrease / 100)),
        pyRound 2 (newBrut * (1 + autoIncrease / 100) * 0.792),
        "basse", none⟩]
    else [ev0]
  events.head?.bind fun e0 =>
  some ⟨brut, net, pyRound 2 (brut / 151.67), events,
    e0.estimatedIncreasePct, e0.newBrut, e0.newNet, e0.fourchette⟩

/-! ## What-if scenarios (`generate_whatif_scenarios`) -/

/-- Numeric content of one pre-computed what-if scenario (`impact`
values and the parsed probability percentage). -/
structure WhatifScenario where
  inflation12m : ℚ
  chomageQ4 : ℚ
  probabilite : ℚ
deriving Repr, DecidableEq

/-- `generate_whatif_scenarios`: the five fixed elasticity-based shock
scenarios (oil shock, euro-area recession, ECB rate hike, strong recovery,
energy crisis), in source order.  The `base_*` parameters are unused by the
source body; probabilities are the parsed `'NN%'` literals. -/
def generateWhatifScenarios (_baseInflation _baseChomage bdfInflation bdfChomage : ℚ) :
    List WhatifScenario :=
  [⟨pyRound 1 (bdfInflation + 0.15 * 3), pyRound 1 (bdfChomage + 0.05 * 3), 15⟩,
   ⟨pyRound 1 (bdfInflation - 0.4), pyRound 1 (bdfChomage + 0.5), 20⟩,
   ⟨pyRound 1 (bdfInflation + (-0.15)), pyRound 1 (bdfChomage + 0.25), 10⟩,
   ⟨pyRound 1 (bdfInflation + 0.3), pyRound 1 (bdfChomage - 0.4), 25⟩,
   ⟨pyRound 1 (bdfInflation + 0.30 * 2), pyRound 1 (bdfChomage + 0.08 * 2), 10⟩]

/-! ## Reading notes (`generate_notes_lecture_v4`)

String formatting is elided: each note is modelled by the list of numeric
values interpolated into it, in source order. -/

def generateNotesLectureV4 (inflation : InflationV4) (smic : SmicV4)
    (chomage : ChomageV4) (whatif : List WhatifScenario) : Option (List (List ℚ)) :=
  (pyLast inflation.mensuel.lowerBound).bind fun lbI =>
  (pyLast inflation.mensuel.upperBound).bind fun ubI =>
  let note1 := [inflation.prevision12m, lbI, ubI, inflation.probSous2pct]
  let note2 : Option (List (List ℚ)) :=
    match smic.events with
    | [] => some []
    | e :: _ =>
        e.fourchette.map fun f => [[(e.date.1 : ℚ), e.newBrut, e.estimatedIncreasePct, f.1, f.2]]
  note2.bind fun note2 =>
  (pyLast chomage.trimestriel.lowerBound).bind fun lbC =>
  (pyLast chomage.trimestriel.upperBound).bind fun ubC =>
  let note3 := [chomage.previsionQ4, lbC, ubC]
  let note4 : List (List ℚ) := if 2.5 < ubI then [[ubI]] else []
  whatif.head?.bind fun w0 =>
  let mostLikely := whatif.foldl (fun acc s => if acc.probabilite < s.probabilite then s else acc) w0
  let smicIncrease :=
    match smic.events with
    | [] => 2
    | e :: _ => e.estimatedIncreasePct
  let recommandation := max (inflation.prevision12m + 0.5) smicIncrease
  some ([note1] ++ note2 ++ [note3] ++ note4 ++ [[mostLikely.probabilite]] ++ [[recommandation]])

/-! ## Orchestrator (`generate_predictions_v4`) -/

/-- The numeric leaves of the persisted JSON document consulted by
`generate_predictions_v4`, each optional.  Nested optional containers
(`indicateurs_cles`, `smic`, `previsions.banque_de_france`,
`climat_affaires`) collapse to optional leaves: a missing container makes
every leaf below it missing.  The upstream pipeline stores all these
fields as numbers. -/
structure Doc where
  inflationAnnuelle : Option ℚ
  tauxChomageActuel : Option ℚ
  difficultesRecrutement : Option ℚ
  climatValeurActuelle : Option ℚ
  smicMontantBrut : Option ℚ
  smicMontantNet : Option ℚ
  bdfInflation2026 : Option ℚ
  bdfInflation2027 : Option ℚ
  bdfChomage2026 : Option ℚ
  bdfChomage2027 : Option ℚ
  pibCroissance2026 : Option ℚ
deriving Repr, DecidableEq

/-- The document `{}`. -/
def emptyDoc : Doc := ⟨none, none, none, none, none, none, none, none, none, none, none⟩

/-- The three simplified scenarios assembled by `generate_predictions_v4`
(optimistic = p25 bands, central = medians, pessimistic = p75 bands). -/
structure ScenarioSet where
  optimisteInflation : ℚ
  optimisteChomage : ℚ
  optimisteSmic : ℚ
  optimistePib : ℚ
  centralInflation : ℚ
  centralChomage : ℚ
  centralSmic : ℚ
  centralPib : ℚ
  pessimisteInflation : ℚ
  pessimisteChomage : ℚ
  pessimisteSmic : ℚ
  pessimistePib : ℚ
deriving Repr, DecidableEq

/-- The forecast bundle written under `previsions_cftc` (timestamp,
version tag and other fixed strings elided). -/
structure BundleV4 where
  inflation : InflationV4
  chomage : ChomageV4
  smic : SmicV4
  scenarios : ScenarioSet
  whatif : List WhatifScenario
  notesLecture : List (List ℚ)
deriving Repr, DecidableEq

/-- `generate_predictions_v4`: anchor extraction with documented defaults,
then the three forecasters, what-if scenarios, simplified scenarios and
reading notes.  `εI`/`εC` are the inflation and unemployment shock
streams, `u` the SMIC perturbation; `nSims` mirrors `N_SIMULATIONS`
(1000 in the source). -/
def generatePredictionsV4 (month year : ℕ) (doc : Doc) (εI εC : ℕ → ℕ → ℚ)
    (u : ℚ) (nSims : ℕ) : Option BundleV4 :=
  let inflationActuel := doc.inflationAnnuelle.getD 1.5
  let chomageActuel := doc.tauxChomageActuel.getD 7.5
  let climatAffaires := doc.climatValeurActuelle.getD 100
  let difficultes := doc.difficultesRecrutement.getD 50
  let bdfInf26 := doc.bdfInflation2026.getD 1.4
  let bdfInf27 := doc.bdfInflation2027.getD 1.6
  let bdfCho26 := doc.bdfChomage2026.getD 7.7
  let bdfCho27 := doc.bdfChomage2027.getD 7.5
  let smicBrut := doc.smicMontantBrut.getD 1823.03
  let smicNet := doc.smicMontantNet.getD 1443.11
  let pib26 := doc.pibCroissance2026.getD 1
  (predictInflationV4 month year inflationActuel bdfInf26 bdfInf27 climatAffaires "stable" εI nSims).bind fun inflation =>
  (predictChomageV4 month year chomageActuel bdfCho26 bdfCho27 climatAffaires difficultes εC nSims).bind fun chomage =>
  (predictSmicV4 month year smicBrut smicNet ⟨some inflation.prevision12m, some inflation.mensuel.upperBound⟩ u bdfInf27).bind fun smic =>
  let whatif := generateWhatifScenarios inflationActuel chomageActuel bdfInf26 bdfCho26
  (pyLast inflation.mensuel.p25).bind fun p25I =>
  (pyLast inflation.mensuel.p75).bind fun p75I =>
  (pyLast chomage.trimestriel.p25).bind fun p25C =>
  (pyLast chomage.trimestriel.p75).bind fun p75C =>
  smic.events.head?.bind fun e0 =>
  let scenarios : ScenarioSet :=
    ⟨p25I, p25C, pyRound 1 (e0.estimatedIncreasePct + 0.3), pyRound 1 (pib26 + 0.5),
     inflation.prevision12m, chomage.previsionQ4, e0.estimatedIncreasePct, pib26,
     p75I, p75C, pyRound 1 (e0.estimatedIncreasePct - 0.2), pyRound 1 (pib26 - 0.5)⟩
  (generateNotesLectureV4 inflation smic chomage whatif).bind fun notes =>
  some ⟨inflation, chomage, smic, scenarios, whatif, notes⟩

/-! ## Interpolation design (`predictions_model_v3.py`) -/

/-- The uncertainty term of `calculate_confidence_bounds` at step index
`i`: `annual_volatility * 1.645 * min(sqrt((i+1)/12), 1.5)`. -/
def v3Uncertainty (vol : ℚ) (i : ℕ) : ℚ :=
  vol * 1.645 * min (ratSqrt (((i : ℚ) + 1) / 12)) 1.5

/-- `calculate_confidence_bounds` from `predictions_model_v3.py`: lower
bound floored at `pred * 0.5`, both bounds rounded to one decimal. -/
def calculateConfidenceBounds (preds : List ℚ) (vol : ℚ) : List ℚ × List ℚ :=
  (preds.mapIdx fun i p => pyRound 1 (max (p - v3Uncertainty vol i) (p * 0.5)),
   preds.mapIdx fun i p => pyRound 1 (p + v3Uncertainty vol i))

/-- `months_to_end_2026 = max(1, 12 - month + 1) if year == 2026 else 12`. -/
def monthsToEnd2026 (month year : ℕ) : ℕ :=
  if year = 2026 then max 1 (12 - month + 1) else 12

/-- The main loop of v3 `predict_inflation`, returning the rounded
predictions, the period labels and (as a verification trace) the `target`
selected at each step.  Arguments after the parameters: remaining steps,
current month, current year, current (unrounded) value, step index `i`. -/
def v3InflLoop (t26 t27 : ℚ) (mte : ℕ) :
    ℕ → ℕ → ℕ → ℚ → ℕ → List ℚ × List (ℕ × ℕ) × List ℚ
  | 0, _, _, _, _ => ([], [], [])
  | steps + 1, month, year, current, i =>
      let m := if month + 1 > 12 then 1 else month + 1
      let y := if month + 1 > 12 then year + 1 else year
      let target := if y ≤ 2026 then t26 else t27
      let progress : ℚ :=
        if y ≤ 2026 then (i : ℚ) / max (mte : ℚ) 1 else ((i : ℚ) - (mte : ℚ)) / 12
      let pred := current + (target - current) * (0.3 + 0.7 * min progress 1)
      let rest := v3InflLoop t26 t27 mte steps m y pred (i + 1)
      (pyRound 1 pred :: rest.1, (y, m) :: rest.2.1, target :: rest.2.2)

/-- Output of v3 `predict_inflation` (numeric content). -/
structure InflationV3 where
  predictions : List ℚ
  lowerBound : List ℚ
  upperBound : List ℚ
  periods : List (ℕ × ℕ)
  targets : List ℚ
deriving Repr, DecidableEq

/-- v3 `predict_inflation`: interpolation toward the Banque de France
projections (`bdf_forecast or default` models Python's falsy-`or`). -/
def predictInflationV3 (month year : ℕ) (current t26 t27 : ℚ) : InflationV3 :=
  let t26' := if t26 = 0 then 1.4 else t26
  let t27' := if t27 = 0 then 1.6 else t27
  let mte := monthsToEnd2026 month year
  let r := v3InflLoop t26' t27' mte 12 month year current 0
  let b := calculateConfidenceBounds r.1 0.4
  ⟨r.1, b.1, b.2, r.2.1, r.2.2⟩

/-- The main loop of v3 `predict_unemployment`.  Arguments after the
parameters: remaining steps, current quarter, current year, current value,
step index. -/
def v3ChomLoop (t26 t27 : ℚ) (hq : ℕ) :
    ℕ → ℕ → ℕ → ℚ → ℕ → List ℚ × List (ℕ × ℕ) × List ℚ
  | 0, _, _, _, _ => ([], [], [])
  | steps + 1, q, y, current, i =>
      let q' := if q + 1 > 4 then 1 else q + 1
      let y' := if q + 1 > 4 then y + 1 else y
      let target := if y' ≤ 2026 then t26 else t27
      let pred := current + (target - current) * (((i : ℚ) + 1) / (hq : ℚ)) * 0.8
      let rest := v3ChomLoop t26 t27 hq steps q' y' pred (i + 1)
      (pyRound 1 pred :: rest.1, (q', y') :: rest.2.1, target :: rest.2.2)

/-- Output of v3 `predict_unemployment` (numeric content). -/
structure ChomageV3 where
  predictions : List ℚ
  lowerBound : List ℚ
  upperBound : List ℚ
  periods : List (ℕ × ℕ)
  targets : List ℚ
deriving Repr, DecidableEq

/-- v3 `predict_unemployment`: quarterly interpolation toward the Banque
de France projections. -/
def predictUnemploymentV3 (month year : ℕ) (current t26 t27 : ℚ) : ChomageV3 :=
  let t26' := if t26 = 0 then 7.7 else t26
  let t27' := if t27 = 0 then 7.6 else t27
  let quarter := (month - 1) / 3 + 1
  let r := v3ChomLoop t26' t27' 4 4 quarter year current 0
  let b := calculateConfidenceBounds r.1 0.3
  ⟨r.1, b.1, b.2, r.2.1, r.2.2⟩

/-- Output of v3 `predict_smic` (numeric content; the `details` sub-dict
of the January event carries `base_inflation` and the margin, both
recoverable from the fields kept here). -/
structure SmicV3 where
  currentBrut : ℚ
  currentNet : ℚ
  horaireBrut : ℚ
  events : List SmicEvent
  totalIncreasePct : ℚ
  finalBrut : ℚ
  finalNet : ℚ
deriving Repr, DecidableEq

/-- v3 `predict_smic`: the mandatory January event from the institutional
inflation projection for the January year, plus a conditional automatic
event; the 12-month summary from the running amounts (updated by the
January event only). -/
def predictSmicV3 (month year : ℕ) (brut net : ℚ)
    (inflationForecast : List ℚ) (bdf26 bdf27 : ℚ) : SmicV3 :=
  let nextJanuaryYear := if 1 ≤ month then year + 1 else year
  let baseInflation := if nextJanuaryYear = 2026 then bdf26 else bdf27
  let estimatedIncrease := pyRound 1 (max 1 (baseInflation + 0.3))
  let newBrut := pyRound 2 (brut * (1 + estimatedIncrease / 100))
  let newNet := pyRound 2 (newBrut * 0.792)
  let ev0 : SmicEvent := ⟨(nextJanuaryYear, 1, 1), "janvier", 1, estimatedIncrease,
    newBrut, newNet, "haute", none⟩
  let cumulInflation := (inflationForecast.take 6).sum / 6 * 0.5
  let autoIncrease := pyRound 1 cumulInflation
  let events :=
    if 2 ≤ cumulInflation then
      [ev0, ⟨(nextJanuaryYear, 7, 1), "automatique", 0.3, autoIncrease,
        pyRound 2 (newBrut * (1 + autoIncrease / 100)),
        pyRound 2 (newBrut * (1 + autoIncrease / 100) * 0.792),
        "basse", none⟩]
    else [ev0]
  let totalIncrease := (newBrut / brut - 1) * 100
  ⟨brut, net, pyRound 2 (brut / 151.67), events,
    pyRound 1 totalIncrease, pyRound 2 newBrut, pyRound 2 newNet⟩

/-! ## Series utilities (`predictions_model_v2.py`) -/

/-- `moving_average`: when the series is shorter than the window the
input list is returned unchanged; otherwise entry `i` averages the up-to-
`window` trailing points.  `start = max(0, i - window + 1)` is `i + 1 -
window` in ℕ; for `window = 0` Python raises `ZeroDivisionError`, which
the `ℚ` convention `x / 0 = 0` replaces (outside every claim's domain). -/
def movingAverage (data : List ℚ) (window : ℕ) : List ℚ :=
  if data.length < window then data
  else (List.range data.length).map fun i =>
    ((data.drop (i + 1 - window)).take (i + 1 - (i + 1 - window))).sum /
      ((i + 1 - (i + 1 - window) : ℕ) : ℚ)

/-- `linear_regression`: ordinary least squares with the two explicit
degenerate policies (`n < 2`, zero denominator). -/
def linearRegression (x y : List ℚ) : ℚ × ℚ :=
  if x.length < 2 then (0, y.headD 0)
  else
    let n : ℚ := (x.length : ℚ)
    let sumX := x.sum
    let sumY := y.sum
    let sumXY := ((x.zip y).map fun p => p.1 * p.2).sum
    let sumX2 := (x.map fun v => v ^ 2).sum
    let denom := n * sumX2 - sumX ^ 2
    if denom = 0 then (0, sumY / n)
    else
      let slope := (n * sumXY - sumX * sumY) / denom
      (slope, (sumY - slope * sumX) / n)

/-- First differences `[data[i] - data[i-1] for i in range(1, len(data))]`. -/
def firstDiffs (data : List ℚ) : List ℚ :=
  List.zipWith (fun a b => a - b) data.tail data

/-- `calculate_volatility`: standard deviation of first differences, with
the fixed default `0.5` below three points. -/
def calculateVolatility (data : List ℚ) : Option ℚ :=
  if data.length < 3 then some 0.5
  else
    if 1 < (firstDiffs data).length then stdevOpt (firstDiffs data)
    else some 0.5

/-! ## Unfolding lemmas for the v4 forecasters -/

theorem predictInflationV4_eq {month year : ℕ} {current t26 t27 climat : ℚ}
    {outlook : String} {ε : ℕ → ℕ → ℚ} {nSims : ℕ} {st : McStats}
    (hst : monteCarloSimulation current (inflationAdjustedTarget year t26 t27 climat outlook)
      0.5 12 nSims 0.12 (some seasonalInflation) month ε = some st)
    (l50 : st.p50.length = 12) :
    predictInflationV4 month year current t26 t27 climat outlook ε nSims =
      some ⟨current, st.p50.getD 5 0, st.p50.getD 11 0,
        (if current + 0.2 < st.p50.getD 11 0 then "hausse"
         else if st.p50.getD 11 0 < current - 0.2 then "baisse" else "stable"),
        0.85,
        ⟨st.p50, st.p10, st.p90, st.p25, st.p75, periodsMonthly month year 12⟩,
        st.probBelow2, st.probBelow2, st.probAbove3,
        inflationBaseTarget year t26 t27, pyRound 2 ((climat - 100) * 0.01),
        energyAdjustment outlook, pyRound 2 (inflationAdjustedTarget year t26 t27 climat outlook)⟩ := by
  have h6 : pyIndex st.p50 5 = some (st.p50.getD 5 0) :=
    pyIndex_eq_getD (by norm_num) (by rw [l50]; norm_num)
  have hne50 : st.p50 ≠ [] := by
    intro h
    rw [h] at l50
    simp at l50
  have h12 : pyLast st.p50 = some (st.p50.getD 11 0) := by
    rw [pyLast_eq hne50, l50]
  obtain ⟨⟨hl10, _, _, _, hl90⟩, _⟩ := mc_some_spec hst
  have h10 : pyLast st.p10 = some (st.p10.getD (st.p10.length - 1) 0) :=
    pyLast_eq (by intro h; rw [h] at hl10; simp at hl10)
  have h90 : pyLast st.p90 = some (st.p90.getD (st.p90.length - 1) 0) :=
    pyLast_eq (by intro h; rw [h] at hl90; simp at hl90)
  simp only [predictInflationV4, hst, Option.some_bind, h6, h12, h10, h90]

theorem predictChomageV4_eq {month year : ℕ} {current t26 t27 climat difficultes : ℚ}
    {ε : ℕ → ℕ → ℚ} {nSims : ℕ} {st : McStats}
    (hst : monteCarloSimulation current (chomageAdjustedTarget year t26 t27 climat difficultes)
      0.4 4 nSims 0.20 none month ε = some st)
    (l50 : st.p50.length = 4) :
    predictChomageV4 month year current t26 t27 climat difficultes ε nSims =
      some ⟨current, st.p50.getD 3 0,
        (if current + 0.2 < st.p50.getD 3 0 then "hausse"
         else if st.p50.getD 3 0 < current - 0.2 then "baisse" else "stable"),
        0.80,
        ⟨st.p50, st.p10, st.p90, st.p25, st.p75, periodsQuarterly ((month - 1) / 3 + 1) year 4⟩,
        pyRound 1 (countLt st.p50 7 / (st.p50.length : ℚ) * 100),
        pyRound 1 (countGt st.p50 8 / (st.p50.length : ℚ) * 100),
        (if year ≤ 2026 then t26 else t27), pyRound 2 ((100 - climat) * 0.02),
        pyRound 2 ((50 - difficultes) * 0.01),
        pyRound 2 (chomageAdjustedTarget year t26 t27 climat difficultes)⟩ := by
  have hne50 : st.p50 ≠ [] := by
    intro h
    rw [h] at l50
    simp at l50
  have h4 : pyLast st.p50 = some (st.p50.getD 3 0) := by
    rw [pyLast_eq hne50, l50]
  obtain ⟨⟨hl10, _, _, _, hl90⟩, _⟩ := mc_some_spec hst
  have h10 : pyLast st.p10 = some (st.p10.getD (st.p10.length - 1) 0) :=
    pyLast_eq (by intro h; rw [h] at hl10; simp at hl10)
  have h90 : pyLast st.p90 = some (st.p90.getD (st.p90.length - 1) 0) :=
    pyLast_eq (by intro h; rw [h] at hl90; simp at hl90)
  simp only [predictChomageV4, hst, Option.some_bind, h4, h10, h90]

theorem predictSmicV4_eq {month year : ℕ} {brut net : ℚ} {fc : SmicInflationInput}
    {u : ℚ} {b27 : ℚ} (hub : fc.upperBound ≠ some []) :
    ∃ tail, predictSmicV4 month year brut net fc u b27 =
      some ⟨brut, net, pyRound 2 (brut / 151.67),
        smicJanuaryEvent month year brut fc u :: tail,
        (smicJanuaryEvent month year brut fc u).estimatedIncreasePct,
        (smicJanuaryEvent month year brut fc u).newBrut,
        (smicJanuaryEvent month year brut fc u).newNet,
        (smicJanuaryEvent month year brut fc u).fourchette⟩ := by
  obtain ⟨v, hv⟩ : ∃ v, pyLast (fc.upperBound.getD [2]) = some v := by
    cases hfc : fc.upperBound with
    | none => exact ⟨2, rfl⟩
    | some l =>
        have : l ≠ [] := by
          intro h
          exact hub (by rw [hfc, h])
        exact ⟨_, by simp only [Option.getD_some]; exact pyLast_eq this⟩
  by_cases hcond : 2 ≤ v ∧ 0.1 < min 0.4 ((v - 2) * 0.3)
  · refine ⟨[⟨((if 1 ≤ month then year + 1 else year), 7, 1), "automatique",
      pyRound 2 (min 0.4 ((v - 2) * 0.3)), pyRound 1 (v - 0.5),
      pyRound 2 ((smicJanuaryEvent month year brut fc u).newBrut * (1 + pyRound 1 (v - 0.5) / 100)),
      pyRound 2 ((smicJanuaryEvent month year brut fc u).newBrut * (1 + pyRound 1 (v - 0.5) / 100) * 0.792),
      "basse", none⟩], ?_⟩
    simp only [predictSmicV4, hv, Option.some_bind, if_pos hcond, List.head?_cons,
      Option.some_bind]
  · refine ⟨[], ?_⟩
    simp only [predictSmicV4, hv, Option.some_bind, if_neg hcond, List.head?_cons,
      Option.some_bind]

/-! ## Path invariant and v3 loop lemmas -/

/-- The Forecast Path invariant of the specification: exactly `n` entries
and `lower_bound[i] ≤ point[i] ≤ upper_bound[i]` at every index. -/
def pathOk (n : ℕ) (preds lower upper : List ℚ) : Prop :=
  preds.length = n ∧ lower.length = n ∧ upper.length = n ∧
  ∀ i < n, lower.getD i 0 ≤ preds.getD i 0 ∧ preds.getD i 0 ≤ upper.getD i 0

instance (n : ℕ) (preds lower upper : List ℚ) : Decidable (pathOk n preds lower upper) := by
  unfold pathOk
  infer_instance

theorem v3InflLoop_lengths (t26 t27 : ℚ) (mte : ℕ) :
    ∀ (steps month year : ℕ) (current : ℚ) (i : ℕ),
    (v3InflLoop t26 t27 mte steps month year current i).1.length = steps ∧
    (v3InflLoop t26 t27 mte steps month year current i).2.1.length = steps ∧
    (v3InflLoop t26 t27 mte steps month year current i).2.2.length = steps
  | 0, _, _, _, _ => ⟨rfl, rfl, rfl⟩
  | steps + 1, month, year, current, i => by
      simp only [v3InflLoop, List.length_cons]
      have := v3InflLoop_lengths t26 t27 mte steps
        (if month + 1 > 12 then 1 else month + 1)
        (if month + 1 > 12 then year + 1 else year)
        (current + ((if (if month + 1 > 12 then year + 1 else year) ≤ 2026 then t26 else t27) - current) *
          (0.3 + 0.7 * min (if (if month + 1 > 12 then year + 1 else year) ≤ 2026 then
            (i : ℚ) / max (mte : ℚ) 1 else ((i : ℚ) - (mte : ℚ)) / 12) 1)) (i + 1)
      exact ⟨by rw [this.1], by rw [this.2.1], by rw [this.2.2]⟩

theorem v3InflLoop_preds_grid (t26 t27 : ℚ) (mte : ℕ) :
    ∀ (steps month year : ℕ) (current : ℚ) (i : ℕ),
    ∀ x ∈ (v3InflLoop t26 t27 mte steps month year current i).1, ∃ q, x = pyRound 1 q
  | 0, _, _, _, _ => by simp [v3InflLoop]
  | steps + 1, month, year, current, i => by
      simp only [v3InflLoop, List.mem_cons]
      rintro x (rfl | hx)
      · exact ⟨_, rfl⟩
      · exact v3InflLoop_preds_grid t26 t27 mte steps _ _ _ _ x hx

/-- The target recorded at each step of the v3 inflation loop is the
institutional projection for the calendar year of that step's period
label. -/
theorem v3InflLoop_targets (t26 t27 : ℚ) (mte : ℕ) :
    ∀ (steps month year : ℕ) (current : ℚ) (i : ℕ), ∀ j < steps,
    (v3InflLoop t26 t27 mte steps month year current i).2.2.getD j 0 =
      (if ((v3InflLoop t26 t27 mte steps month year current i).2.1.getD j (0, 0)).1 ≤ 2026
       then t26 else t27)
  | 0, _, _, _, _ => by omega
  | steps + 1, month, year, current, i => by
      intro j hj
      simp only [v3InflLoop]
      cases j with
      | zero => simp
      | succ j' =>
          simp only [List.getD_cons_succ]
          exact v3InflLoop_targets t26 t27 mte steps _ _ _ _ j' (by omega)

theorem v3ChomLoop_lengths (t26 t27 : ℚ) (hq : ℕ) :
    ∀ (steps q y : ℕ) (current : ℚ) (i : ℕ),
    (v3ChomLoop t26 t27 hq steps q y current i).1.length = steps ∧
    (v3ChomLoop t26 t27 hq steps q y current i).2.1.length = steps ∧
    (v3ChomLoop t26 t27 hq steps q y current i).2.2.length = steps
  | 0, _, _, _, _ => ⟨rfl, rfl, rfl⟩
  | steps + 1, q, y, current, i => by
      simp only [v3ChomLoop, List.length_cons]
      have := v3ChomLoop_lengths t26 t27 hq steps
        (if q + 1 > 4 then 1 else q + 1) (if q + 1 > 4 then y + 1 else y)
        (current + ((if (if q + 1 > 4 then y + 1 else y) ≤ 2026 then t26 else t27) - current) *
          (((i : ℚ) + 1) / (hq : ℚ)) * 0.8) (i + 1)
      exact ⟨by rw [this.1], by rw [this.2.1], by rw [this.2.2]⟩

theorem v3ChomLoop_preds_grid (t26 t27 : ℚ) (hq : ℕ) :
    ∀ (steps q y : ℕ) (current : ℚ) (i : ℕ),
    ∀ x ∈ (v3ChomLoop t26 t27 hq steps q y current i).1, ∃ r, x = pyRound 1 r
  | 0, _, _, _, _ => by simp [v3ChomLoop]
  | steps + 1, q, y, current, i => by
      simp only [v3ChomLoop, List.mem_cons]
      rintro x (rfl | hx)
      · exact ⟨_, rfl⟩
      · exact v3ChomLoop_preds_grid t26 t27 hq steps _ _ _ _ x hx

theorem v3Uncertainty_nonneg {vol : ℚ} (hvol : 0 ≤ vol) (i : ℕ) :
    0 ≤ v3Uncertainty vol i := by
  unfold v3Uncertainty
  apply mul_nonneg (by positivity)
  exact le_min (ratSqrt_nonneg _) (by norm_num)

/-- Bounds of `calculate_confidence_bounds` around a nonnegative,
already-rounded point estimate. -/
theorem ccb_bounds {preds : List ℚ} {vol : ℚ} (hvol : 0 ≤ vol) {i : ℕ}
    (hi : i < preds.length)
    (hgrid : pyRound 1 (preds.getD i 0) = preds.getD i 0)
    (hnn : 0 ≤ preds.getD i 0) :
    (calculateConfidenceBounds preds vol).1.getD i 0 ≤ preds.getD i 0 ∧
    preds.getD i 0 ≤ (calculateConfidenceBounds preds vol).2.getD i 0 := by
  have hu := v3Uncertainty_nonneg hvol i
  set p := preds.getD i 0 with hp
  have hlow : (calculateConfidenceBounds preds vol).1.getD i 0 =
      pyRound 1 (max (p - v3Uncertainty vol i) (p * 0.5)) := by
    unfold calculateConfidenceBounds
    rw [List.getD_eq_getElem _ 0 (by simpa using hi), List.getElem_mapIdx,
      hp, List.getD_eq_getElem _ 0 hi]
  have hup : (calculateConfidenceBounds preds vol).2.getD i 0 =
      pyRound 1 (p + v3Uncertainty vol i) := by
    unfold calculateConfidenceBounds
    rw [List.getD_eq_getElem _ 0 (by simpa using hi), List.getElem_mapIdx,
      hp, List.getD_eq_getElem _ 0 hi]
  constructor
  · rw [hlow, ← hgrid]
    apply pyRound_mono
    apply max_le (by linarith) (by linarith)
  · rw [hup, ← hgrid]
    apply pyRound_mono
    linarith

/-- The length of each side of `calculate_confidence_bounds`. -/
theorem ccb_lengths (preds : List ℚ) (vol : ℚ) :
    (calculateConfidenceBounds preds vol).1.length = preds.length ∧
    (calculateConfidenceBounds preds vol).2.length = preds.length := by
  unfold calculateConfidenceBounds
  simp

/-! ## Evaluation helpers for concrete instances -/

theorem rhe_eq_low {q : ℚ} {z : ℤ} (h1 : (z : ℚ) ≤ q) (h2 : q < (z : ℚ) + 1/2) :
    rhe q = z := by
  have hf : ⌊q⌋ = z := Int.floor_eq_iff.mpr ⟨h1, by linarith⟩
  unfold rhe
  rw [hf, if_pos (by linarith)]

theorem rhe_eq_high {q : ℚ} {z : ℤ} (h1 : (z : ℚ) + 1/2 < q) (h2 : q < (z : ℚ) + 1) :
    rhe q = z + 1 := by
  have hf : ⌊q⌋ = z := Int.floor_eq_iff.mpr ⟨by linarith, by linarith⟩
  unfold rhe
  rw [hf, if_neg (by linarith), if_pos (by linarith)]

theorem pyRound_eq_low {d : ℕ} {q : ℚ} {z : ℤ} (h1 : (z : ℚ) ≤ q * 10 ^ d)
    (h2 : q * 10 ^ d < (z : ℚ) + 1/2) : pyRound d q = (z : ℚ) / 10 ^ d := by
  unfold pyRound
  rw [rhe_eq_low h1 h2]

theorem pyRound_eq_high {d : ℕ} {q : ℚ} {z : ℤ} (h1 : (z : ℚ) + 1/2 < q * 10 ^ d)
    (h2 : q * 10 ^ d < (z : ℚ) + 1) : pyRound d q = ((z : ℚ) + 1) / 10 ^ d := by
  unfold pyRound
  rw [rhe_eq_high h1 h2]
  push_cast
  ring

theorem pyRound_nonneg (d : ℕ) {q : ℚ} (h : 0 ≤ q) : 0 ≤ pyRound d q := by
  have h0 : pyRound d ((0 : ℤ) : ℚ) = 0 := by
    rw [pyRound_intCast]
    norm_num
  calc (0 : ℚ) = pyRound d ((0 : ℤ) : ℚ) := h0.symm
    _ ≤ pyRound d q := pyRound_mono d (by push_cast; linarith)

/-- One-step unfolding of the v3 inflation loop. -/
theorem v3InflLoop_one (t26 t27 : ℚ) (mte steps month year : ℕ) (current : ℚ) (i : ℕ) :
    v3InflLoop t26 t27 mte (steps + 1) month year current i =
      ((pyRound 1 (current + ((if (if month + 1 > 12 then year + 1 else year) ≤ 2026 then t26 else t27) - current) *
          (0.3 + 0.7 * min (if (if month + 1 > 12 then year + 1 else year) ≤ 2026 then
            (i : ℚ) / max (mte : ℚ) 1 else ((i : ℚ) - (mte : ℚ)) / 12) 1))) ::
        (v3InflLoop t26 t27 mte steps (if month + 1 > 12 then 1 else month + 1)
          (if month + 1 > 12 then year + 1 else year)
          (current + ((if (if month + 1 > 12 then year + 1 else year) ≤ 2026 then t26 else t27) - current) *
            (0.3 + 0.7 * min (if (if month + 1 > 12 then year + 1 else year) ≤ 2026 then
              (i : ℚ) / max (mte : ℚ) 1 else ((i : ℚ) - (mte : ℚ)) / 12) 1)) (i + 1)).1,
       ((if month + 1 > 12 then year + 1 else year), if month + 1 > 12 then 1 else month + 1) ::
        (v3InflLoop t26 t27 mte steps (if month + 1 > 12 then 1 else month + 1)
          (if month + 1 > 12 then year + 1 else year)
          (current + ((if (if month + 1 > 12 then year + 1 else year) ≤ 2026 then t26 else t27) - current) *
            (0.3 + 0.7 * min (if (if month + 1 > 12 then year + 1 else year) ≤ 2026 then
              (i : ℚ) / max (mte : ℚ) 1 else ((i : ℚ) - (mte : ℚ)) / 12) 1)) (i + 1)).2.1,
       (if (if month + 1 > 12 then year + 1 else year) ≤ 2026 then t26 else t27) ::
        (v3InflLoop t26 t27 mte steps (if month + 1 > 12 then 1 else month + 1)
          (if month + 1 > 12 then year + 1 else year)
          (current + ((if (if month + 1 > 12 then year + 1 else year) ≤ 2026 then t26 else t27) - current) *
            (0.3 + 0.7 * min (if (if month + 1 > 12 then year + 1 else year) ≤ 2026 then
              (i : ℚ) / max (mte : ℚ) 1 else ((i : ℚ) - (mte : ℚ)) / 12) 1)) (i + 1)).2.2) := rfl

/-! ## Claim formalisations -/

/-- A zero shock stream (used to instantiate theorems at concrete inputs). -/
def zeroShock : ℕ → ℕ → ℚ := fun _ _ => 0

/-- Ordering of the five published percentile bands at every step of a
simulation result; an aborted simulation (`none`) fails the property. -/
def mcBandsProp (n : ℕ) : Option McStats → Prop
  | none => False
  | some st => ∀ h < n,
      st.p10.getD h 0 ≤ st.p25.getD h 0 ∧ st.p25.getD h 0 ≤ st.p50.getD h 0 ∧
      st.p50.getD h 0 ≤ st.p75.getD h 0 ∧ st.p75.getD h 0 ≤ st.p90.getD h 0

/-- Claim C4 (confirmed): for every simulated path set (any current value,
target, volatility, positive horizon, at least two trajectories — the
source always uses 1000 — any mean-reversion speed, seasonality and shock
stream), the simulation succeeds and its published rounded percentile
bands satisfy `p10 ≤ p25 ≤ p50 ≤ p75 ≤ p90` at every step. -/
theorem claimC4_percentile_ordering :
    ∀ (current target vol : ℚ) (horizon nSims : ℕ) (mrs : ℚ)
      (seasonal : Option (ℕ → ℚ)) (startMonth : ℕ) (ε : ℕ → ℕ → ℚ),
    2 ≤ nSims → 1 ≤ horizon →
    mcBandsProp horizon (monteCarloSimulation current target vol horizon nSims mrs seasonal startMonth ε) := by
  intro current target vol horizon nSims mrs seasonal startMonth ε hn hh
  obtain ⟨st, hst⟩ := mc_isSome hn hh
  rw [hst]
  exact mc_bands_ordered hst (le_trans (by norm_num) hn)

/-- Witness for C4: the ordering holds for a concrete two-trajectory
inflation-style simulation. -/
theorem claimC4_witness :
    mcBandsProp 12 (monteCarloSimulation 1.5 1.4 0.5 12 2 0.12 (some seasonalInflation) 1 zeroShock) :=
  claimC4_percentile_ordering 1.5 1.4 0.5 12 2 0.12 (some seasonalInflation) 1 zeroShock
    (by norm_num) (by norm_num)

/-- The published unemployment threshold probabilities: fractions of the
four median-path entries, hence confined to `{0, 25, 50, 75, 100}`, and
never the empirical fractions over the simulated terminal values. -/
def chomC9Prop : Option ChomageV4 → Prop
  | none => False
  | some r =>
      r.probSous7pct = pyRound 1 (countLt r.trimestriel.predictions 7 / 4 * 100) ∧
      r.probAuDessus8pct = pyRound 1 (countGt r.trimestriel.predictions 8 / 4 * 100) ∧
      (r.probSous7pct = 0 ∨ r.probSous7pct = 25 ∨ r.probSous7pct = 50 ∨
        r.probSous7pct = 75 ∨ r.probSous7pct = 100) ∧
      (r.probAuDessus8pct = 0 ∨ r.probAuDessus8pct = 25 ∨ r.probAuDessus8pct = 50 ∨
        r.probAuDessus8pct = 75 ∨ r.probAuDessus8pct = 100)

theorem quarterProb_mem (l : List ℚ) (hl : l.length = 4) (d : ℚ → Bool) :
    pyRound 1 (((l.filter d).length : ℚ) / (l.length : ℚ) * 100) = 0 ∨
    pyRound 1 (((l.filter d).length : ℚ) / (l.length : ℚ) * 100) = 25 ∨
    pyRound 1 (((l.filter d).length : ℚ) / (l.length : ℚ) * 100) = 50 ∨
    pyRound 1 (((l.filter d).length : ℚ) / (l.length : ℚ) * 100) = 75 ∨
    pyRound 1 (((l.filter d).length : ℚ) / (l.length : ℚ) * 100) = 100 := by
  have hle : (l.filter d).length ≤ 4 := by
    rw [← hl]
    exact List.length_filter_le d l
  set n := (l.filter d).length with hn
  rw [hl]
  have heq : ((n : ℚ)) / ((4 : ℕ) : ℚ) * 100 = ((25 * n : ℤ) : ℚ) := by
    push_cast
    ring
  rw [heq, pyRound_intCast]
  interval_cases n <;> norm_num

/-- Claim C9 (confirmed): for every input and shock stream (two or more
trajectories), the unemployment forecaster's published threshold
probabilities are the fraction of the 4 median-path entries crossing the
threshold — not empirical probabilities over the simulated terminal
values — so each lies in `{0, 25, 50, 75, 100}`. -/
theorem claimC9_chomage_probabilities :
    ∀ (month year : ℕ) (current t26 t27 climat difficultes : ℚ)
      (ε : ℕ → ℕ → ℚ) (nSims : ℕ), 2 ≤ nSims →
    chomC9Prop (predictChomageV4 month year current t26 t27 climat difficultes ε nSims) := by
  intro month year current t26 t27 climat difficultes ε nSims hn
  obtain ⟨st, hst⟩ := @mc_isSome current (chomageAdjustedTarget year t26 t27 climat difficultes)
    0.4 4 nSims 0.20 none month ε hn (by norm_num)
  obtain ⟨⟨_, _, l50, _, _⟩, _⟩ := mc_some_spec hst
  have hcast : ((st.p50.length : ℚ)) = 4 := by
    rw [l50]
    norm_num
  have h1 : pyRound 1 (countLt st.p50 7 / ((st.p50.length : ℚ)) * 100) =
      pyRound 1 (countLt st.p50 7 / 4 * 100) := by rw [hcast]
  have h2 : pyRound 1 (countGt st.p50 8 / ((st.p50.length : ℚ)) * 100) =
      pyRound 1 (countGt st.p50 8 / 4 * 100) := by rw [hcast]
  rw [predictChomageV4_eq hst l50]
  exact ⟨h1, h2, quarterProb_mem st.p50 l50 _, quarterProb_mem st.p50 l50 _⟩

/-- Witness for C9: a concrete two-trajectory run. -/
theorem claimC9_witness :
    chomC9Prop (predictChomageV4 1 2026 7.5 7.7 7.5 100 50 zeroShock 2) :=
  claimC9_chomage_probabilities 1 2026 7.5 7.7 7.5 100 50 zeroShock 2 (by norm_num)

/-- The first revaluation event of a SMIC forecast is the mandatory January
event: probability exactly 1, type `"janvier"`, dated the next January
1st; a failed run (`none`) or an empty event list fails the property. -/
def smicMandatoryFirst (year : ℕ) : Option SmicV4 → Prop
  | none => False
  | some r =>
      match r.events with
      | [] => False
      | e :: _ => e.probability = 1 ∧ e.typ = "janvier" ∧ e.date = (year + 1, 1, 1)

/-- Claim C2 (corrected) — counterexample to the claim as stated: on the
input whose inflation forecast carries an explicitly empty `upper_bound`
list, `predict_smic_v4` fails on `[-1]` (IndexError) instead of returning
an event list, so "for every input" is false. -/
theorem claimC2_counterexample :
    predictSmicV4 1 2026 (182303/100) (144311/100) ⟨none, some []⟩ 0 0 = none := by
  decide

/-- Claim C2 (corrected, amended): for every run date (month ≥ 1) and every
input whose optional upper-bound series is non-empty when present, the SMIC
forecaster returns a non-empty Revaluation Event list whose first element
has probability exactly 1.0 and type `"janvier"`, dated the next January
1st. -/
theorem claimC2_mandatory_first_event :
    ∀ (month year : ℕ) (brut net : ℚ) (fc : SmicInflationInput) (u b27 : ℚ),
    1 ≤ month → fc.upperBound ≠ some [] →
    smicMandatoryFirst year (predictSmicV4 month year brut net fc u b27) := by
  intro month year brut net fc u b27 hm hub
  obtain ⟨tail, heq⟩ := predictSmicV4_eq hub
  rw [heq]
  refine ⟨rfl, rfl, ?_⟩
  show ((if 1 ≤ month then year + 1 else year), 1, 1) = (year + 1, 1, 1)
  rw [if_pos hm]

/-- Witness for C2: the empty inflation-forecast input (both fields
missing). -/
theorem claimC2_witness :
    smicMandatoryFirst 2026 (predictSmicV4 1 2026 (182303/100) (144311/100) ⟨none, none⟩ 0 (16/10)) :=
  claimC2_mandatory_first_event 1 2026 (182303/100) (144311/100) ⟨none, none⟩ 0 (16/10)
    (by norm_num) (by simp)

/-- The mandatory January event's arithmetic: increase floored at 1 %, the
projected gross from the current gross, the projected net at the fixed
0.792 ratio from the rounded gross. -/
def smicC5Prop (brut : ℚ) : Option SmicV4 → Prop
  | none => False
  | some r =>
      match r.events with
      | [] => False
      | e :: _ =>
          1 ≤ e.estimatedIncreasePct ∧
          e.newBrut = pyRound 2 (brut * (1 + e.estimatedIncreasePct / 100)) ∧
          e.newNet = pyRound 2 (e.newBrut * 0.792)

theorem one_le_pyRound_max_one (x : ℚ) : 1 ≤ pyRound 1 (max 1 x) := by
  have hc : pyRound 1 ((1 : ℤ) : ℚ) = 1 := pyRound_intCast 1 1
  calc (1 : ℚ) = pyRound 1 ((1 : ℤ) : ℚ) := hc.symm
    _ ≤ _ := pyRound_mono 1 (by push_cast; exact le_max_left _ _)

theorem one_le_smicJanuaryIncrease (fc : SmicInflationInput) (u : ℚ) :
    1 ≤ smicJanuaryIncrease fc u :=
  one_le_pyRound_max_one _

/-- The same January-event arithmetic, for the v3 `predict_smic` output. -/
def smicC5PropV3 (brut : ℚ) (r : SmicV3) : Prop :=
  match r.events with
  | [] => False
  | e :: _ =>
      1 ≤ e.estimatedIncreasePct ∧
      e.newBrut = pyRound 2 (brut * (1 + e.estimatedIncreasePct / 100)) ∧
      e.newNet = pyRound 2 (e.newBrut * 0.792)

/-- Claim C5 (confirmed): for every current gross amount and every
inflation forecast (upper-bound series non-empty when present, any bounded
perturbation `u`), the mandatory January event of `predict_smic_v4` has
`estimated_increase_pct ≥ 1.0`, gross `= current × (1 + pct/100)` rounded
to 2 decimals, and net `= gross × 0.792` rounded to 2 decimals; the same
arithmetic holds for the v3 `predict_smic` January event. -/
theorem claimC5_smic_january_arithmetic :
    (∀ (month year : ℕ) (brut net : ℚ) (fc : SmicInflationInput) (u b27 : ℚ),
      fc.upperBound ≠ some [] →
      smicC5Prop brut (predictSmicV4 month year brut net fc u b27)) ∧
    (∀ (month year : ℕ) (brut net : ℚ) (forecast : List ℚ) (bdf26 bdf27 : ℚ),
      smicC5PropV3 brut (predictSmicV3 month year brut net forecast bdf26 bdf27)) := by
  constructor
  · intro month year brut net fc u b27 hub
    obtain ⟨tail, heq⟩ := predictSmicV4_eq hub
    rw [heq]
    exact ⟨one_le_smicJanuaryIncrease fc u, rfl, rfl⟩
  · intro month year brut net forecast bdf26 bdf27
    by_cases hc : (2 : ℚ) ≤ (forecast.take 6).sum / 6 * 0.5
    · show smicC5PropV3 brut _
      simp only [predictSmicV3, if_pos hc]
      exact ⟨one_le_pyRound_max_one _, rfl, rfl⟩
    · show smicC5PropV3 brut _
      simp only [predictSmicV3, if_neg hc]
      exact ⟨one_le_pyRound_max_one _, rfl, rfl⟩

/-- Witness for C5: the spec's example input — gross €1823.03, 12-month
inflation forecast value 1.4 %, perturbation 0. -/
theorem claimC5_witness :
    smicC5Prop (182303/100)
      (predictSmicV4 1 2026 (182303/100) (144311/100) ⟨some (14/10), none⟩ 0 (16/10)) :=
  claimC5_smic_january_arithmetic.1 1 2026 (182303/100) (144311/100) ⟨some (14/10), none⟩ 0 (16/10)
    (by simp)

/-- The `forecast_12m` summary triple of a SMIC forecast. -/
def smicSummaryOf (r : SmicV4) : ℚ × ℚ × ℚ := (r.totalIncreasePct, r.finalBrut, r.finalNet)

/-- The number of projected events of a SMIC forecast. -/
def smicEventCount (r : SmicV4) : ℕ := r.events.length

/-- Claim C10 (confirmed): the `forecast_12m` summary always equals the
mandatory January event's figures — it is a closed function of the current
gross, the 12-month point forecast and the perturbation alone, so a
generated automatic event never contributes to the summary. -/
theorem claimC10_summary_mandatory_only :
    ∀ (month year : ℕ) (brut net : ℚ) (fc : SmicInflationInput) (u b27 : ℚ),
    fc.upperBound ≠ some [] →
    (predictSmicV4 month year brut net fc u b27).map smicSummaryOf =
      some ((smicJanuaryEvent month year brut fc u).estimatedIncreasePct,
        (smicJanuaryEvent month year brut fc u).newBrut,
        (smicJanuaryEvent month year brut fc u).newNet) := by
  intro month year brut net fc u b27 hub
  obtain ⟨tail, heq⟩ := predictSmicV4_eq hub
  rw [heq, Option.map_some']
  rfl

/-- Witness for C10: an input whose high upper bound makes the automatic
event fire (two events), with the summary still the January figures. -/
theorem claimC10_witness :
    (predictSmicV4 1 2026 (182303/100) (144311/100) ⟨some (14/10), some [3]⟩ 0 (16/10)).map smicSummaryOf =
      some ((smicJanuaryEvent 1 2026 (182303/100) ⟨some (14/10), some [3]⟩ 0).estimatedIncreasePct,
        (smicJanuaryEvent 1 2026 (182303/100) ⟨some (14/10), some [3]⟩ 0).newBrut,
        (smicJanuaryEvent 1 2026 (182303/100) ⟨some (14/10), some [3]⟩ 0).newNet) ∧
    (predictSmicV4 1 2026 (182303/100) (144311/100) ⟨some (14/10), some [3]⟩ 0 (16/10)).map smicEventCount = some 2 :=
  ⟨claimC10_summary_mandatory_only 1 2026 (182303/100) (144311/100) ⟨some (14/10), some [3]⟩ 0 (16/10)
    (by simp),
   by
    have hpl : pyLast (((⟨some (14/10), some [3]⟩ : SmicInflationInput)).upperBound.getD [2]) = some 3 := rfl
    simp only [predictSmicV4, hpl, Option.some_bind]
    rw [if_pos (⟨by norm_num, by rw [min_def]; norm_num⟩)]
    simp [smicEventCount]⟩

/-- Claim C7 (corrected) — counterexample to the claim as stated:
`percentile` applied to an empty series does not follow a degenerate-case
policy; it fails (IndexError on the empty sorted copy). -/
theorem claimC7_counterexample : percentile ([] : List ℚ) 50 = none := by
  have hs : sortQ ([] : List ℚ) = [] := by simp [sortQ]
  have hk : kOf (sortQ ([] : List ℚ)) 50 = -(1/2) := by
    rw [hs]
    unfold kOf
    norm_num
  have hf : ⌊kOf (sortQ ([] : List ℚ)) 50⌋ = -1 := by
    rw [hk]
    exact Int.floor_eq_iff.mpr ⟨by norm_num, by norm_num⟩
  have hc : ⌈kOf (sortQ ([] : List ℚ)) 50⌉ = 0 := by
    rw [hk]
    exact Int.ceil_eq_iff.mpr ⟨by norm_num, by norm_num⟩
  unfold percentile
  rw [hf, hc, if_neg (by norm_num), hs]
  rfl

/-- Claim C7 (corrected, amended): the Series Statistics Utility never
raises on its documented degenerate inputs — `linear_regression` with a
zero denominator returns `(0, mean y)` (equal-length inputs),
`calculate_volatility` returns the fixed default 0.5 below three points
and always succeeds — and `percentile` succeeds on every nonempty series
with `0 ≤ p ≤ 100`, but raises an IndexError on an empty series. -/
theorem claimC7_degenerate_policies :
    (∀ x y : List ℚ, x.length = y.length → 2 ≤ x.length →
      (x.length : ℚ) * ((x.map fun v => v ^ 2).sum) - x.sum ^ 2 = 0 →
      linearRegression x y = (0, y.sum / (y.length : ℚ))) ∧
    (∀ data : List ℚ, data.length < 3 → calculateVolatility data = some 0.5) ∧
    (∀ data : List ℚ, (calculateVolatility data).isSome = true) ∧
    (∀ (data : List ℚ) (p : ℚ), data ≠ [] → 0 ≤ p → p ≤ 100 →
      (percentile data p).isSome = true) := by
  refine ⟨?_, ?_, ?_, ?_⟩
  · intro x y hxy hx2 hdenom
    unfold linearRegression
    rw [if_neg (by omega), if_pos hdenom, hxy]
  · intro data h3
    unfold calculateVolatility
    rw [if_pos h3]
  · intro data
    unfold calculateVolatility
    by_cases h3 : data.length < 3
    · rw [if_pos h3]
      rfl
    · rw [if_neg h3]
      have hd : (firstDiffs data).length = data.length - 1 := by
        unfold firstDiffs
        rw [List.length_zipWith, List.length_tail]
        omega
      have h2 : 1 < (firstDiffs data).length := by omega
      rw [if_pos h2]
      unfold stdevOpt
      rw [if_neg (by omega)]
      rfl
  · intro data p hne hp0 hp1
    rw [percentile_eq_interp hne hp0 hp1]
    rfl

/-- Witness for C7: a zero-denominator regression, a two-point volatility,
a four-point volatility and a three-point percentile. -/
theorem claimC7_witness :
    linearRegression [1, 1] [2, 4] = (0, ([2, 4] : List ℚ).sum / ((([2, 4] : List ℚ).length : ℕ) : ℚ)) ∧
    calculateVolatility [1, 2] = some 0.5 ∧
    (calculateVolatility [1, 2, 3, 5]).isSome = true ∧
    (percentile [3, 1, 2] 50).isSome = true := by
  refine ⟨?_, ?_, ?_, ?_⟩
  · exact claimC7_degenerate_policies.1 [1, 1] [2, 4] rfl (by norm_num)
      (by simp; norm_num)
  · exact claimC7_degenerate_policies.2.1 [1, 2] (by norm_num)
  · exact claimC7_degenerate_policies.2.2.1 [1, 2, 3, 5]
  · exact claimC7_degenerate_policies.2.2.2 [3, 1, 2] 50 (by simp) (by norm_num) (by norm_num)

/-- Modelled from the spec: `movingAverage(series, window)` "returns a
same-length sequence where entry i is the average of up to `window`
trailing points ending at i (partial windows at the start use whatever is
available)". -/
def specMovingAverage (data : List ℚ) (window : ℕ) : List ℚ :=
  (List.range data.length).map fun i =>
    ((data.take (i + 1)).drop (i + 1 - window)).sum /
      ((((data.take (i + 1)).drop (i + 1 - window)).length : ℕ) : ℚ)

/-- Claim C8 (corrected) — counterexample to the claim as stated: on a
series shorter than the window, `moving_average` returns the raw input,
not the partial averages the spec describes (entry 1 of `[1, 3]` with
window 3 should be 2, but is 3). -/
theorem claimC8_counterexample :
    movingAverage [1, 3] 3 = [1, 3] ∧ specMovingAverage [1, 3] 3 = [1, 2] ∧
    movingAverage [1, 3] 3 ≠ specMovingAverage [1, 3] 3 := by
  have h1 : movingAverage [1, 3] 3 = [1, 3] := by
    unfold movingAverage
    rw [if_pos (by norm_num)]
  have h2 : specMovingAverage [1, 3] 3 = [1, 2] := by
    unfold specMovingAverage
    norm_num [List.range_succ]
  refine ⟨h1, h2, ?_⟩
  rw [h1, h2]
  intro hc
  have := List.cons.injEq (1 : ℚ) [3] 1 [2] ▸ hc
  simp at this

/-- Claim C8 (corrected, amended): for every series and every window ≥ 1,
`moving_average` returns a sequence of the same length; when the series
has at least `window` points it is exactly the spec's trailing-average
sequence, but a series shorter than the window is returned unchanged (raw
values, not partial averages). -/
theorem claimC8_moving_average :
    ∀ (data : List ℚ) (window : ℕ), 1 ≤ window →
    (movingAverage data window).length = data.length ∧
    (data.length < window → movingAverage data window = data) ∧
    (window ≤ data.length → movingAverage data window = specMovingAverage data window) := by
  intro data window hw
  refine ⟨?_, ?_, ?_⟩
  · unfold movingAverage
    split
    · rfl
    · simp
  · intro h
    unfold movingAverage
    rw [if_pos h]
  · intro h
    unfold movingAverage specMovingAverage
    rw [if_neg (by omega)]
    apply List.map_congr_left
    intro i hi
    rw [List.mem_range] at hi
    have hlo : i + 1 - window ≤ i + 1 := by omega
    have hcnt : i + 1 - window + (i + 1 - (i + 1 - window)) = i + 1 := by omega
    have htd : (data.drop (i + 1 - window)).take (i + 1 - (i + 1 - window)) =
        (data.take (i + 1)).drop (i + 1 - window) := by
      rw [List.take_drop, hcnt]
    have hlen : ((data.take (i + 1)).drop (i + 1 - window)).length =
        i + 1 - (i + 1 - window) := by
      rw [List.length_drop, List.length_take]
      omega
    rw [htd, hlen]

/-- Witness for C8: a four-point series with window 3. -/
theorem claimC8_witness :
    (movingAverage [1, 2, 3, 4] 3).length = ([1, 2, 3, 4] : List ℚ).length ∧
    (([1, 2, 3, 4] : List ℚ).length < 3 → movingAverage [1, 2, 3, 4] 3 = [1, 2, 3, 4]) ∧
    (3 ≤ ([1, 2, 3, 4] : List ℚ).length →
      movingAverage [1, 2, 3, 4] 3 = specMovingAverage [1, 2, 3, 4] 3) :=
  claimC8_moving_average [1, 2, 3, 4] 3 (by norm_num)

/-- The convergence target toward which step `_i` of the v4 inflation
simulation drifts: `predict_inflation_v4` passes the single adjusted
target to `monte_carlo_simulation`, so it is the same for every forecast
month, selected from the run-date year alone. -/
def inflationTargetUsedAtV4 (_month year : ℕ) (t26 t27 climat : ℚ) (outlook : String)
    (_i : ℕ) : ℚ :=
  inflationAdjustedTarget year t26 t27 climat outlook

/-- Modelled from the spec: "Select the convergence target: the
institutional projection for whichever calendar year each forecast month
falls into (switch targets mid-horizon if the horizon spans a year
boundary)" — with the two-year institutional table, months in years up to
2026 use the 2026 projection and later months the 2027 one. -/
def specInflationTargetAt (month year : ℕ) (t26 t27 : ℚ) (i : ℕ) : ℚ :=
  if ((periodsMonthly month year 12).getD i (0, 0)).1 ≤ 2026 then t26 else t27

/-- Claim C6 (corrected) — counterexample to the claim as stated: for a
run in July 2026 with distinct 2026/2027 projections and neutral
adjustments, forecast month index 5 falls in January 2027, whose
institutional projection is 9.9, yet the v4 forecaster's convergence
target for that month is still 1.4 (the run-year selection). -/
theorem claimC6_counterexample :
    inflationTargetUsedAtV4 7 2026 1.4 9.9 100 "stable" 5 = 1.4 ∧
    specInflationTargetAt 7 2026 1.4 9.9 5 = 9.9 ∧
    inflationTargetUsedAtV4 7 2026 1.4 9.9 100 "stable" 5 ≠ specInflationTargetAt 7 2026 1.4 9.9 5 := by
  have henergy : energyAdjustment "stable" = 0 := by
    unfold energyAdjustment
    simp
  have h1 : inflationTargetUsedAtV4 7 2026 1.4 9.9 100 "stable" 5 = 1.4 := by
    unfold inflationTargetUsedAtV4 inflationAdjustedTarget inflationBaseTarget
    rw [henergy]
    norm_num [min_def, max_def]
  have h2 : specInflationTargetAt 7 2026 1.4 9.9 5 = 9.9 := by
    unfold specInflationTargetAt
    norm_num [periodsMonthly]
  exact ⟨h1, h2, by rw [h1, h2]; norm_num⟩

/-- Claim C6 (corrected, amended): in the Monte-Carlo design the
convergence target is selected once from the run-date's calendar year
(2026 projection when the run year is at most 2026, else the 2027 one)
and used unchanged for the whole 12-month horizon; the mid-horizon switch
exists only in the v3 interpolation design, where the target recorded at
each step is the institutional projection for that step's calendar year. -/
theorem claimC6_target_selection :
    (∀ (month year : ℕ) (t26 t27 climat : ℚ) (outlook : String) (i j : ℕ),
      inflationTargetUsedAtV4 month year t26 t27 climat outlook i =
        inflationTargetUsedAtV4 month year t26 t27 climat outlook j ∧
      inflationBaseTarget year t26 t27 = (if year ≤ 2026 then t26 else t27)) ∧
    (∀ (month year : ℕ) (current t26 t27 : ℚ), ∀ i < 12,
      (predictInflationV3 month year current t26 t27).targets.getD i 0 =
        (if ((predictInflationV3 month year current t26 t27).periods.getD i (0, 0)).1 ≤ 2026
         then (if t26 = 0 then 1.4 else t26) else (if t27 = 0 then 1.6 else t27))) := by
  constructor
  · intro month year t26 t27 climat outlook i j
    exact ⟨rfl, rfl⟩
  · intro month year current t26 t27 i hi
    have h := v3InflLoop_targets (if t26 = 0 then 1.4 else t26) (if t27 = 0 then 1.6 else t27)
      (monthsToEnd2026 month year) 12 month year current 0 i hi
    exact h

/-- Witness for C6: a January-2026 run, where the v3 trace switches to the
2027 projection at the final month. -/
theorem claimC6_witness :
    (inflationTargetUsedAtV4 1 2026 1.4 1.6 100 "stable" 0 =
      inflationTargetUsedAtV4 1 2026 1.4 1.6 100 "stable" 11 ∧
     inflationBaseTarget 2026 1.4 1.6 = (if 2026 ≤ 2026 then (1.4 : ℚ) else 1.6)) ∧
    (predictInflationV3 1 2026 1.5 1.4 1.6).targets.getD 11 0 =
      (if ((predictInflationV3 1 2026 1.5 1.4 1.6).periods.getD 11 (0, 0)).1 ≤ 2026
       then (if (1.4 : ℚ) = 0 then 1.4 else 1.4) else (if (1.6 : ℚ) = 0 then 1.6 else 1.6)) :=
  ⟨claimC6_target_selection.1 1 2026 1.4 1.6 100 "stable" 0 11,
   claimC6_target_selection.2 1 2026 1.5 1.4 1.6 11 (by norm_num)⟩

theorem getD_mem_of_lt {l : List ℚ} {i : ℕ} (h : i < l.length) : l.getD i 0 ∈ l := by
  rw [List.getD_eq_getElem l 0 h]
  exact List.getElem_mem h

/-- The Forecast Path invariant for a v4 inflation run (`none` fails it). -/
def inflPathProp : Option InflationV4 → Prop
  | none => False
  | some r => pathOk 12 r.mensuel.predictions r.mensuel.lowerBound r.mensuel.upperBound

/-- The Forecast Path invariant for a v4 unemployment run. -/
def chomPathProp : Option ChomageV4 → Prop
  | none => False
  | some r => pathOk 4 r.trimestriel.predictions r.trimestriel.lowerBound r.trimestriel.upperBound

/-- Claim C1 (corrected, amended): every Monte-Carlo forecast path has
exactly `horizon` entries (12 months, 4 quarters) with
`lower_bound[i] ≤ point[i] ≤ upper_bound[i]` throughout; in the
interpolation design the same holds provided every rounded point estimate
is nonnegative — under deflation inputs the computed lower bound (floored
at `pred * 0.5`) can exceed a negative point estimate. -/
theorem claimC1_path_invariant :
    (∀ (month year : ℕ) (current t26 t27 climat : ℚ) (outlook : String)
      (ε : ℕ → ℕ → ℚ) (nSims : ℕ), 2 ≤ nSims →
      inflPathProp (predictInflationV4 month year current t26 t27 climat outlook ε nSims)) ∧
    (∀ (month year : ℕ) (current t26 t27 climat difficultes : ℚ)
      (ε : ℕ → ℕ → ℚ) (nSims : ℕ), 2 ≤ nSims →
      chomPathProp (predictChomageV4 month year current t26 t27 climat difficultes ε nSims)) ∧
    (∀ (month year : ℕ) (current t26 t27 : ℚ),
      (∀ i < 12, 0 ≤ (predictInflationV3 month year current t26 t27).predictions.getD i 0) →
      pathOk 12 (predictInflationV3 month year current t26 t27).predictions
        (predictInflationV3 month year current t26 t27).lowerBound
        (predictInflationV3 month year current t26 t27).upperBound) ∧
    (∀ (month year : ℕ) (current t26 t27 : ℚ),
      (∀ i < 4, 0 ≤ (predictUnemploymentV3 month year current t26 t27).predictions.getD i 0) →
      pathOk 4 (predictUnemploymentV3 month year current t26 t27).predictions
        (predictUnemploymentV3 month year current t26 t27).lowerBound
        (predictUnemploymentV3 month year current t26 t27).upperBound) := by
  refine ⟨?_, ?_, ?_, ?_⟩
  · intro month year current t26 t27 climat outlook ε nSims hn
    obtain ⟨st, hst⟩ := @mc_isSome current (inflationAdjustedTarget year t26 t27 climat outlook)
      0.5 12 nSims 0.12 (some seasonalInflation) month ε hn (by norm_num)
    obtain ⟨⟨l10, _, l50, _, l90⟩, _⟩ := mc_some_spec hst
    rw [predictInflationV4_eq hst l50]
    refine ⟨l50, l10, l90, fun i hi => ?_⟩
    obtain ⟨h1, h2, h3, h4⟩ := mc_bands_ordered hst (le_trans (by norm_num) hn) i hi
    exact ⟨le_trans h1 h2, le_trans h3 h4⟩
  · intro month year current t26 t27 climat difficultes ε nSims hn
    obtain ⟨st, hst⟩ := @mc_isSome current (chomageAdjustedTarget year t26 t27 climat difficultes)
      0.4 4 nSims 0.20 none month ε hn (by norm_num)
    obtain ⟨⟨l10, _, l50, _, l90⟩, _⟩ := mc_some_spec hst
    rw [predictChomageV4_eq hst l50]
    refine ⟨l50, l10, l90, fun i hi => ?_⟩
    obtain ⟨h1, h2, h3, h4⟩ := mc_bands_ordered hst (le_trans (by norm_num) hn) i hi
    exact ⟨le_trans h1 h2, le_trans h3 h4⟩
  · intro month year current t26 t27 hnn
    have hpr : (predictInflationV3 month year current t26 t27).predictions =
        (v3InflLoop (if t26 = 0 then 1.4 else t26) (if t27 = 0 then 1.6 else t27)
          (monthsToEnd2026 month year) 12 month year current 0).1 := rfl
    have hlow : (predictInflationV3 month year current t26 t27).lowerBound =
        (calculateConfidenceBounds (predictInflationV3 month year current t26 t27).predictions 0.4).1 := rfl
    have hup : (predictInflationV3 month year current t26 t27).upperBound =
        (calculateConfidenceBounds (predictInflationV3 month year current t26 t27).predictions 0.4).2 := rfl
    have hlen : (predictInflationV3 month year current t26 t27).predictions.length = 12 := by
      rw [hpr]
      exact (v3InflLoop_lengths _ _ _ 12 month year current 0).1
    refine ⟨hlen, ?_, ?_, fun i hi => ?_⟩
    · rw [hlow, (ccb_lengths _ _).1, hlen]
    · rw [hup, (ccb_lengths _ _).2, hlen]
    · have hilen : i < (predictInflationV3 month year current t26 t27).predictions.length := by
        rw [hlen]
        exact hi
      have hmem := getD_mem_of_lt hilen
      rw [hpr] at hmem
      obtain ⟨q, hq⟩ := v3InflLoop_preds_grid _ _ _ 12 month year current 0 _ hmem
      rw [← hpr] at hq
      have hgrid : pyRound 1 ((predictInflationV3 month year current t26 t27).predictions.getD i 0) =
          (predictInflationV3 month year current t26 t27).predictions.getD i 0 := by
        rw [hq, pyRound_idem]
      have hb := ccb_bounds (by norm_num : (0:ℚ) ≤ 0.4) hilen hgrid (hnn i hi)
      rw [hlow, hup]
      exact hb
  · intro month year current t26 t27 hnn
    have hpr : (predictUnemploymentV3 month year current t26 t27).predictions =
        (v3ChomLoop (if t26 = 0 then 7.7 else t26) (if t27 = 0 then 7.6 else t27)
          4 4 ((month - 1) / 3 + 1) year current 0).1 := rfl
    have hlow : (predictUnemploymentV3 month year current t26 t27).lowerBound =
        (calculateConfidenceBounds (predictUnemploymentV3 month year current t26 t27).predictions 0.3).1 := rfl
    have hup : (predictUnemploymentV3 month year current t26 t27).upperBound =
        (calculateConfidenceBounds (predictUnemploymentV3 month year current t26 t27).predictions 0.3).2 := rfl
    have hlen : (predictUnemploymentV3 month year current t26 t27).predictions.length = 4 := by
      rw [hpr]
      exact (v3ChomLoop_lengths _ _ _ 4 _ year current 0).1
    refine ⟨hlen, ?_, ?_, fun i hi => ?_⟩
    · rw [hlow, (ccb_lengths _ _).1, hlen]
    · rw [hup, (ccb_lengths _ _).2, hlen]
    · have hilen : i < (predictUnemploymentV3 month year current t26 t27).predictions.length := by
        rw [hlen]
        exact hi
      have hmem := getD_mem_of_lt hilen
      rw [hpr] at hmem
      obtain ⟨q, hq⟩ := v3ChomLoop_preds_grid _ _ _ 4 _ year current 0 _ hmem
      rw [← hpr] at hq
      have hgrid : pyRound 1 ((predictUnemploymentV3 month year current t26 t27).predictions.getD i 0) =
          (predictUnemploymentV3 month year current t26 t27).predictions.getD i 0 := by
        rw [hq, pyRound_idem]
      have hb := ccb_bounds (by norm_num : (0:ℚ) ≤ 0.3) hilen hgrid (hnn i hi)
      rw [hlow, hup]
      exact hb

/-- Claim C1 (corrected) — counterexample to the claim as stated: a
deflation input (current inflation −2 %) in January 2026 gives a first
point estimate of −1.0 while the computed lower bound is −0.5, violating
`lower_bound[0] ≤ point[0]`. -/
theorem claimC1_counterexample :
    ¬ ((predictInflationV3 1 2026 (-2) 1.4 1.6).lowerBound.getD 0 0 ≤
       (predictInflationV3 1 2026 (-2) 1.4 1.6).predictions.getD 0 0) := by
  have hpr : (predictInflationV3 1 2026 (-2) 1.4 1.6).predictions =
      (v3InflLoop (if (1.4 : ℚ) = 0 then 1.4 else 1.4) (if (1.6 : ℚ) = 0 then 1.6 else 1.6)
        (monthsToEnd2026 1 2026) 12 1 2026 (-2) 0).1 := rfl
  have hlow : (predictInflationV3 1 2026 (-2) 1.4 1.6).lowerBound =
      (calculateConfidenceBounds (predictInflationV3 1 2026 (-2) 1.4 1.6).predictions 0.4).1 := rfl
  have hp0 : pyRound 1 (-(49/50) : ℚ) = -1 := by
    have h := pyRound_eq_low (d := 1) (q := -(49/50)) (z := -10) (by norm_num) (by norm_num)
    rw [h]
    norm_num
  have hpred0 : (predictInflationV3 1 2026 (-2) 1.4 1.6).predictions.getD 0 0 = -1 := by
    rw [hpr, show (12 : ℕ) = 11 + 1 from rfl, v3InflLoop_one, List.getD_cons_zero, ← hp0]
    congr 1
    norm_num [min_def, max_def, monthsToEnd2026]
  have hccb : ∀ (a : ℚ) (l : List ℚ) (vol : ℚ),
      (calculateConfidenceBounds (a :: l) vol).1.getD 0 0 =
        pyRound 1 (max (a - v3Uncertainty vol 0) (a * 0.5)) := by
    intro a l vol
    unfold calculateConfidenceBounds
    rw [List.mapIdx_cons, List.getD_cons_zero]
  have hlow0 : (predictInflationV3 1 2026 (-2) 1.4 1.6).lowerBound.getD 0 0 =
      pyRound 1 (max (pyRound 1 (-(49/50)) - v3Uncertainty 0.4 0) (pyRound 1 (-(49/50)) * 0.5)) := by
    rw [hlow, hpr, show (12 : ℕ) = 11 + 1 from rfl, v3InflLoop_one, hccb]
    congr 2 <;>
    · congr 2
      norm_num [min_def, max_def, monthsToEnd2026]
  have hhalf : pyRound 1 (-(1/2) : ℚ) = -(1/2) := by
    have hgrid := pyRound_eq_self_of_grid 1 (-5)
    have : ((-5 : ℤ) : ℚ) / 10 ^ 1 = -(1/2) := by norm_num
    rw [this] at hgrid
    exact hgrid
  have hlow0ge : -(1/2) ≤ (predictInflationV3 1 2026 (-2) 1.4 1.6).lowerBound.getD 0 0 := by
    rw [hlow0, ← hhalf]
    apply pyRound_mono
    rw [hp0]
    calc (-(1/2) : ℚ) = -1 * 0.5 := by norm_num
      _ ≤ max (-1 - v3Uncertainty 0.4 0) (-1 * 0.5) := le_max_right _ _
  intro hc
  rw [hpred0] at hc
  have := le_trans hlow0ge hc
  norm_num at this

theorem v3InflLoop_const (c : ℚ) (mte : ℕ) :
    ∀ (steps month year : ℕ) (cur : ℚ) (i : ℕ), cur = c →
    ∀ x ∈ (v3InflLoop c c mte steps month year cur i).1, x = pyRound 1 c
  | 0, _, _, _, _, _ => by simp [v3InflLoop]
  | steps + 1, month, year, cur, i, hcur => by
      have htarget : (if (if month + 1 > 12 then year + 1 else year) ≤ 2026 then c else c) = c := by
        split <;> split <;> rfl
      have hpred : cur + ((if (if month + 1 > 12 then year + 1 else year) ≤ 2026 then c else c) - cur) *
          (0.3 + 0.7 * min (if (if month + 1 > 12 then year + 1 else year) ≤ 2026 then
            (i : ℚ) / max (mte : ℚ) 1 else ((i : ℚ) - (mte : ℚ)) / 12) 1) = c := by
        rw [htarget, hcur]
        ring
      simp only [v3InflLoop, List.mem_cons]
      rintro x (rfl | hx)
      · rw [hpred]
      · exact v3InflLoop_const c mte steps _ _ _ _ hpred x hx

theorem v3ChomLoop_const (c : ℚ) (hq : ℕ) :
    ∀ (steps q y : ℕ) (cur : ℚ) (i : ℕ), cur = c →
    ∀ x ∈ (v3ChomLoop c c hq steps q y cur i).1, x = pyRound 1 c
  | 0, _, _, _, _, _ => by simp [v3ChomLoop]
  | steps + 1, q, y, cur, i, hcur => by
      have htarget : (if (if q + 1 > 4 then y + 1 else y) ≤ 2026 then c else c) = c := by
        split <;> split <;> rfl
      have hpred : cur + ((if (if q + 1 > 4 then y + 1 else y) ≤ 2026 then c else c) - cur) *
          (((i : ℚ) + 1) / (hq : ℚ)) * 0.8 = c := by
        rw [htarget, hcur]
        ring
      simp only [v3ChomLoop, List.mem_cons]
      rintro x (rfl | hx)
      · rw [hpred]
      · exact v3ChomLoop_const c hq steps _ _ _ _ hpred x hx

/-- Witness for C1: concrete two-trajectory Monte-Carlo runs, and v3 runs
at a constant (nonnegative) value where every point estimate stays at that
value. -/
theorem claimC1_witness :
    inflPathProp (predictInflationV4 1 2026 1.5 1.4 1.6 100 "stable" zeroShock 2) ∧
    chomPathProp (predictChomageV4 1 2026 7.5 7.7 7.5 100 50 zeroShock 2) ∧
    pathOk 12 (predictInflationV3 1 2026 1.4 1.4 1.4).predictions
      (predictInflationV3 1 2026 1.4 1.4 1.4).lowerBound
      (predictInflationV3 1 2026 1.4 1.4 1.4).upperBound ∧
    pathOk 4 (predictUnemploymentV3 1 2026 7.7 7.7 7.7).predictions
      (predictUnemploymentV3 1 2026 7.7 7.7 7.7).lowerBound
      (predictUnemploymentV3 1 2026 7.7 7.7 7.7).upperBound := by
  refine ⟨claimC1_path_invariant.1 1 2026 1.5 1.4 1.6 100 "stable" zeroShock 2 (by norm_num),
    claimC1_path_invariant.2.1 1 2026 7.5 7.7 7.5 100 50 zeroShock 2 (by norm_num),
    claimC1_path_invariant.2.2.1 1 2026 1.4 1.4 1.4 ?_,
    claimC1_path_invariant.2.2.2 1 2026 7.7 7.7 7.7 ?_⟩
  · intro i hi
    have hpr : (predictInflationV3 1 2026 1.4 1.4 1.4).predictions =
        (v3InflLoop 1.4 1.4 12 12 1 2026 1.4 0).1 := by
      show (v3InflLoop (if (1.4 : ℚ) = 0 then 1.4 else 1.4) (if (1.4 : ℚ) = 0 then 1.6 else 1.4)
        (monthsToEnd2026 1 2026) 12 1 2026 1.4 0).1 = _
      norm_num [monthsToEnd2026]
    rw [hpr]
    have hlen : (v3InflLoop (1.4 : ℚ) 1.4 12 12 1 2026 1.4 0).1.length = 12 :=
      (v3InflLoop_lengths 1.4 1.4 12 12 1 2026 1.4 0).1
    have hmem := getD_mem_of_lt (l := (v3InflLoop (1.4 : ℚ) 1.4 12 12 1 2026 1.4 0).1)
      (i := i) (by rw [hlen]; exact hi)
    have hval := v3InflLoop_const 1.4 12 12 1 2026 1.4 0 rfl _ hmem
    rw [hval]
    exact pyRound_nonneg 1 (by norm_num)
  · intro i hi
    have hpr : (predictUnemploymentV3 1 2026 7.7 7.7 7.7).predictions =
        (v3ChomLoop 7.7 7.7 4 4 1 2026 7.7 0).1 := by
      show (v3ChomLoop (if (7.7 : ℚ) = 0 then 7.7 else 7.7) (if (7.7 : ℚ) = 0 then 7.6 else 7.7)
        4 4 ((1 - 1) / 3 + 1) 2026 7.7 0).1 = _
      norm_num
    rw [hpr]
    have hlen : (v3ChomLoop (7.7 : ℚ) 7.7 4 4 1 2026 7.7 0).1.length = 4 :=
      (v3ChomLoop_lengths 7.7 7.7 4 4 1 2026 7.7 0).1
    have hmem := getD_mem_of_lt (l := (v3ChomLoop (7.7 : ℚ) 7.7 4 4 1 2026 7.7 0).1)
      (i := i) (by rw [hlen]; exact hi)
    have hval := v3ChomLoop_const 7.7 4 4 1 2026 7.7 0 rfl _ hmem
    rw [hval]
    exact pyRound_nonneg 1 (by norm_num)

/-- The three anchor values surfaced by a forecast bundle: current
inflation, current unemployment, current gross SMIC. -/
def anchorsOf (b : BundleV4) : ℚ × ℚ × ℚ :=
  (b.inflation.actuel, b.chomage.actuel, b.smic.currentBrut)

/-- Claim C3 (confirmed): for every structurally valid document (arbitrary
optional numeric leaves, including the empty document and documents with
no historical data — v4 never consults historical series), every shock
stream and every perturbation, the v4 orchestration returns a full
Forecast Bundle, with each missing anchor replaced by its documented
default (inflation 1.5, unemployment 7.5, SMIC gross 1823.03). -/
theorem claimC3_orchestration_total :
    ∀ (month year : ℕ) (doc : Doc) (εI εC : ℕ → ℕ → ℚ) (u : ℚ) (nSims : ℕ),
    2 ≤ nSims →
    (generatePredictionsV4 month year doc εI εC u nSims).map anchorsOf =
      some (doc.inflationAnnuelle.getD 1.5, doc.tauxChomageActuel.getD 7.5,
        doc.smicMontantBrut.getD 1823.03) := by
  intro month year doc εI εC u nSims hn
  obtain ⟨stI, hstI⟩ := @mc_isSome (doc.inflationAnnuelle.getD 1.5)
    (inflationAdjustedTarget year (doc.bdfInflation2026.getD 1.4) (doc.bdfInflation2027.getD 1.6)
      (doc.climatValeurActuelle.getD 100) "stable")
    0.5 12 nSims 0.12 (some seasonalInflation) month εI hn (by norm_num)
  obtain ⟨⟨lI10, lI25, lI50, lI75, lI90⟩, _⟩ := mc_some_spec hstI
  have hInfl := predictInflationV4_eq hstI lI50
  obtain ⟨stC, hstC⟩ := @mc_isSome (doc.tauxChomageActuel.getD 7.5)
    (chomageAdjustedTarget year (doc.bdfChomage2026.getD 7.7) (doc.bdfChomage2027.getD 7.5)
      (doc.climatValeurActuelle.getD 100) (doc.difficultesRecrutement.getD 50))
    0.4 4 nSims 0.20 none month εC hn (by norm_num)
  obtain ⟨⟨lC10, lC25, lC50, lC75, lC90⟩, _⟩ := mc_some_spec hstC
  have hCho := predictChomageV4_eq hstC lC50
  have hub : ((⟨some (stI.p50.getD 11 0), some stI.p90⟩ : SmicInflationInput)).upperBound ≠ some [] := by
    intro h
    simp only [Option.some.injEq] at h
    rw [h] at lI90
    simp at lI90
  obtain ⟨tail, hSmic⟩ := @predictSmicV4_eq month year
    (doc.smicMontantBrut.getD 1823.03) (doc.smicMontantNet.getD 1443.11)
    ⟨some (stI.p50.getD 11 0), some stI.p90⟩ u (doc.bdfInflation2027.getD 1.6) hub
  have hp10I : pyLast stI.p10 = some (stI.p10.getD (stI.p10.length - 1) 0) :=
    pyLast_eq (by intro h; rw [h] at lI10; simp at lI10)
  have hp90I : pyLast stI.p90 = some (stI.p90.getD (stI.p90.length - 1) 0) :=
    pyLast_eq (by intro h; rw [h] at lI90; simp at lI90)
  have hp25I : pyLast stI.p25 = some (stI.p25.getD (stI.p25.length - 1) 0) :=
    pyLast_eq (by intro h; rw [h] at lI25; simp at lI25)
  have hp75I : pyLast stI.p75 = some (stI.p75.getD (stI.p75.length - 1) 0) :=
    pyLast_eq (by intro h; rw [h] at lI75; simp at lI75)
  have hp10C : pyLast stC.p10 = some (stC.p10.getD (stC.p10.length - 1) 0) :=
    pyLast_eq (by intro h; rw [h] at lC10; simp at lC10)
  have hp90C : pyLast stC.p90 = some (stC.p90.getD (stC.p90.length - 1) 0) :=
    pyLast_eq (by intro h; rw [h] at lC90; simp at lC90)
  have hp25C : pyLast stC.p25 = some (stC.p25.getD (stC.p25.length - 1) 0) :=
    pyLast_eq (by intro h; rw [h] at lC25; simp at lC25)
  have hp75C : pyLast stC.p75 = some (stC.p75.getD (stC.p75.length - 1) 0) :=
    pyLast_eq (by intro h; rw [h] at lC75; simp at lC75)
  simp only [generatePredictionsV4, hInfl, hCho, Option.some_bind, hSmic,
    hp25I, hp75I, hp25C, hp75C, hp10I, hp90I, hp10C, hp90C,
    List.head?_cons, generateNotesLectureV4, generateWhatifScenarios,
    smicJanuaryEvent, smicJanuaryIncrease, Option.map_some', anchorsOf]

/-- Witness for claim C3: with the empty document, trivial shock streams
and two simulations, the orchestration returns a bundle whose anchors are
exactly the three documented defaults. -/
theorem claimC3_witness :
    2 ≤ 2 ∧
    (generatePredictionsV4 1 2026 emptyDoc zeroShock zeroShock 0 2).map anchorsOf =
      some (emptyDoc.inflationAnnuelle.getD 1.5, emptyDoc.tauxChomageActuel.getD 7.5,
        emptyDoc.smicMontantBrut.getD 1823.03) :=
  ⟨by norm_num,
    claimC3_orchestration_total 1 2026 emptyDoc zeroShock zeroShock 0 2 (by norm_num)⟩

end CftC
